import Mathlib

/-!
# Poultry-Farm: remote-mode bootstrap and WebView content loader

A shallow embedding of the start-up, the handlers and the render of `App`
(`App.js`), of the handlers, the render and the auto-retry effect of
`WebViewScreen` (`src/screens/WebViewScreen.js`), and of the farm data handlers:
batch deletion and inventory updates (`src/context/AppContext.js`), the stock
handlers (`src/screens/InventoryScreen.js`) and the add-batch form
(`src/screens/HerdManagement/AddBatchScreen.js`).

Modelling conventions

* A value returned by `JSON.parse` is a `Json`.  JavaScript `undefined` is `none`
  in an `Option Json`.
* A network read (`fetch`, then `response.ok`, `response.text()`, `JSON.parse`)
  is a `Fetch`: the data the code inspects, in the order in which it inspects it.
* React state is a record; a setter call is a record update.  An `async`
  function is a function from the state before the call to a `Completion`: the
  state after it together with the message of the exception that escaped, if any.
* `console.log` / `console.error` calls have no effect on the state and are left out.
* A handler runs against the committed state: the component has rendered between
  two events.
-/

namespace PoultryFarm

/-! ## JSON values -/

/-- A value produced by `JSON.parse`.  An object is the list of its own
enumerable properties, key and value, in the order in which `Object.values`
enumerates them: the order of first insertion for ordinary keys (array-index keys,
which the engine enumerates ahead of the others, are listed where the engine puts
them).  `JSON.parse` yields distinct keys; no theorem below depends on it.
A number is the value of the parsed double; the code only observes whether a
number is zero. -/
inductive Json where
  | null
  | bool (b : Bool)
  | num (q : ℚ)
  | str (s : String)
  | arr (items : List Json)
  | obj (props : List (String × Json))

namespace Json

/-- JavaScript truthiness (`ToBoolean`) of a parsed JSON value. -/
def truthy : Json → Bool
  | null => false
  | bool b => b
  | num q => decide (q ≠ 0)
  | str s => decide (s ≠ "")
  | arr _ => true
  | obj _ => true

/-- The test `typeof v === 'string'`. -/
def isString : Json → Bool
  | str _ => true
  | _ => false

/-- The test `typeof v === 'object'` (true of `null`, arrays and objects). -/
def isObjectType : Json → Bool
  | null => true
  | arr _ => true
  | obj _ => true
  | _ => false

/-- The property read `v[key]` for a key that no prototype defines (such as `url`):
the own property of an object, `undefined` on every other value the code
reads it from. -/
def getProp (key : String) : Json → Option Json
  | obj props => (props.find? (fun p => p.1 == key)).map (fun p => p.2)
  | _ => none

/-- The list `Object.values(v)`. -/
def values : Json → List Json
  | obj props => props.map (fun p => p.2)
  | arr items => items
  | str s => s.data.map (fun c => str (String.singleton c))
  | _ => []

end Json

/-- Truthiness of a possibly `undefined` value. -/
def truthyOpt : Option Json → Bool
  | none => false
  | some v => v.truthy

/-- The call `s.startsWith(pre)` on a string `s`. -/
def startsWith (s pre : String) : Bool :=
  pre.data.isPrefixOf s.data

/-! ## Network reads -/

/-- What `await response.text()` followed by `JSON.parse` yields. -/
inductive Body where
  | readError (message : String)
  | invalidJson
  | json (value : Json)

/-- What `await fetch(url)` yields: a rejection, or a response with its `ok`
flag, its `status` and its body. -/
inductive Fetch where
  | transportError (message : String)
  | response (ok : Bool) (status : Nat) (body : Body)

/-! ## Host state (`App.js`) -/

/-- The React state of `App`. -/
structure AppState where
  fontsLoaded : Bool
  appReady : Bool
  shouldLoadWebView : Bool
  webViewUrl : String
  loading : Bool
  error : Option String
  webViewFailed : Bool
deriving DecidableEq, Repr

/-- The state of `App` at first render (the `useState` initial values). -/
def AppState.initial : AppState :=
  { fontsLoaded := false, appReady := false, shouldLoadWebView := false,
    webViewUrl := "", loading := true, error := none, webViewFailed := false }

/-- How a call of an `async` function ends: the state it leaves and the message
of the exception it throws to its caller (`none` when it returns normally). -/
structure Completion where
  state : AppState
  thrown : Option String
deriving DecidableEq, Repr

/-- The message of the `TypeError` raised by calling `startsWith` on a value
that has no such method; its wording belongs to the JavaScript engine. -/
structure Runtime where
  notAFunction : Json → String

/-- An engine with the wording of V8 for that `TypeError`. -/
def Runtime.v8 : Runtime :=
  { notAFunction := fun _ => "finalUrl.startsWith is not a function" }

/-- The template literal of the HTTP failure, for a given `status`. -/
def httpErrorMessage (status : Nat) : String :=
  "HTTP error! status: " ++ toString status

/-- Lines 104-116 of `App.js`: the candidate `finalUrl` extracted from the
parsed locator response (`none` is `undefined`). -/
def extractFinalUrl (urlData : Json) : Option Json :=
  match urlData with
  | .str s => some (.str s)
  | _ =>
    if urlData.truthy && truthyOpt (urlData.getProp "url") then
      urlData.getProp "url"
    else if urlData.truthy && urlData.isObjectType then
      match urlData.values.find? Json.isString with
      | some (.str stringValue) =>
        if decide (stringValue ≠ "") && startsWith stringValue "http" then
          some (.str stringValue)
        else none
      | _ => none
    else none

/-- Lines 118-126 of `App.js`, after a successful locator read: the guard
`finalUrl && finalUrl.startsWith('http')` and its two branches. -/
def acceptFinalUrl (rt : Runtime) (finalUrl : Option Json) (s : AppState) : Completion :=
  match finalUrl with
  | none => ⟨s, some "No valid URL found in configuration"⟩
  | some v =>
    if !v.truthy then ⟨s, some "No valid URL found in configuration"⟩
    else
      match v with
      | .str url =>
        if startsWith url "http" then
          ⟨{ s with webViewUrl := url, shouldLoadWebView := true, webViewFailed := false },
            none⟩
        else ⟨s, some "No valid URL found in configuration"⟩
      | _ => ⟨s, some (rt.notAFunction v)⟩

/-- Lines 85-126 of `App.js`: the branch taken when the flag is `true`. -/
def fetchLocator (rt : Runtime) (urlFetch : Fetch) (s : AppState) : Completion :=
  match urlFetch with
  | .transportError m => ⟨s, some m⟩
  | .response ok status body =>
    if !ok then ⟨s, some (httpErrorMessage status)⟩
    else
      match body with
      | .readError m => ⟨s, some m⟩
      | .invalidJson => ⟨s, some "Invalid JSON in URL response"⟩
      | .json urlData => acceptFinalUrl rt (extractFinalUrl urlData) s

/-- Lines 58-132 of `App.js`: the `try` block of `checkRemoteFlag`. -/
def checkRemoteFlagTry (rt : Runtime) (flagFetch urlFetch : Fetch) (s : AppState) :
    Completion :=
  let s1 := { s with loading := true }
  match flagFetch with
  | .transportError m => ⟨s1, some m⟩
  | .response ok status body =>
    if !ok then ⟨s1, some (httpErrorMessage status)⟩
    else
      match body with
      | .readError m => ⟨s1, some m⟩
      | .invalidJson => ⟨s1, some "Invalid JSON in flag response"⟩
      | .json flagData =>
        match flagData with
        | .bool true => fetchLocator rt urlFetch s1
        | _ => ⟨{ s1 with shouldLoadWebView := false, webViewFailed := false }, none⟩

/-- Lines 134-139 of `App.js`: the `catch` block of `checkRemoteFlag`. -/
def checkRemoteFlagCatch (message : String) (s : AppState) : AppState :=
  { s with shouldLoadWebView := false, webViewFailed := false,
           error := some ("Failed to check updates: " ++ message) }

/-- Lines 140-143 of `App.js`: the `finally` block of `checkRemoteFlag`. -/
def checkRemoteFlagFinally (s : AppState) : AppState :=
  { s with loading := false, appReady := true }

/-- The function `checkRemoteFlag` of `App.js` (lines 56-144): `flagFetch` is what
`fetch(FLAG_URL)` yields, `urlFetch` what `fetch(URL_CONFIG)` yields if it is issued. -/
def checkRemoteFlag (rt : Runtime) (flagFetch urlFetch : Fetch) (s : AppState) :
    Completion :=
  let r := checkRemoteFlagTry rt flagFetch urlFetch s
  match r.thrown with
  | none => ⟨checkRemoteFlagFinally r.state, none⟩
  | some message => ⟨checkRemoteFlagFinally (checkRemoteFlagCatch message r.state), none⟩

/-! ## Host start-up, handlers and render (`App.js`) -/

/-- What `await Font.loadAsync(...)` yields. -/
inductive FontLoad where
  | loaded
  | failed (message : String)

/-- The function `loadFonts` of `App.js` (lines 47-54). -/
def loadFonts (fonts : FontLoad) (s : AppState) : Completion :=
  match fonts with
  | .failed message => ⟨s, some message⟩
  | .loaded => ⟨{ s with fontsLoaded := true }, none⟩

/-- Lines 39-44 of `App.js`: the `catch` block of `initializeApp`. -/
def initializeAppCatch (s : AppState) : AppState :=
  { s with error := some "Failed to initialize app", appReady := true, loading := false }

/-- The function `initializeApp` of `App.js` (lines 31-45). -/
def initializeApp (rt : Runtime) (fonts : FontLoad) (flagFetch urlFetch : Fetch)
    (s : AppState) : Completion :=
  let r1 := loadFonts fonts s
  match r1.thrown with
  | some _ => ⟨initializeAppCatch r1.state, none⟩
  | none =>
    let r2 := checkRemoteFlag rt flagFetch urlFetch r1.state
    match r2.thrown with
    | some _ => ⟨initializeAppCatch r2.state, none⟩
    | none => ⟨r2.state, none⟩

/-- The function `handleWebViewFallback` of `App.js` (lines 146-150). -/
def handleWebViewFallback (s : AppState) : AppState :=
  { s with webViewFailed := true, shouldLoadWebView := false }

/-- The function `handleRetryInitialCheck` of `App.js` (lines 152-157), up to the
completion of the `initializeApp` call it starts. -/
def handleRetryInitialCheck (rt : Runtime) (fonts : FontLoad) (flagFetch urlFetch : Fetch)
    (s : AppState) : Completion :=
  initializeApp rt fonts flagFetch urlFetch
    { s with error := none, loading := true, webViewFailed := false }

/-- The view trees `App` can return (lines 159-210). -/
inductive HostView where
  | loadingScreen
  | errorPanel (message : String)
  | webViewScreen (url : String)
  | nativeNavigator
deriving DecidableEq, Repr

/-- Truthiness of the `error` state, `null` or a string. -/
def errorTruthy : Option String → Bool
  | none => false
  | some message => decide (message ≠ "")

/-- The render of `App` (lines 159-210). -/
def renderApp (s : AppState) : HostView :=
  if !s.appReady || !s.fontsLoaded || s.loading then .loadingScreen
  else if errorTruthy s.error && !s.shouldLoadWebView && !s.webViewFailed then
    .errorPanel (s.error.getD "")
  else if s.shouldLoadWebView && !s.webViewFailed then .webViewScreen s.webViewUrl
  else .nativeNavigator

/-- The handlers of `App` that a rendered view can trigger: the
`onFallbackToNative` prop of `WebViewScreen`, and the `Retry Check` button with
the outcomes of the reads that the retry performs. -/
inductive HostAction where
  | webViewFallback
  | retryInitialCheck (fonts : FontLoad) (flagFetch urlFetch : Fetch)

/-- Whether the rendered view wires the handler of an action (lines 180-183 and
198-201): no handler of `App` is passed to the loading screen or to the native
navigator. -/
def HostAction.enabled : HostView → HostAction → Bool
  | .webViewScreen _, .webViewFallback => true
  | .errorPanel _, .retryInitialCheck _ _ _ => true
  | _, _ => false

/-- The state after the handler of an action has run to completion. -/
def HostAction.run (rt : Runtime) : HostAction → AppState → AppState
  | .webViewFallback, s => handleWebViewFallback s
  | .retryInitialCheck fonts flagFetch urlFetch, s =>
    (handleRetryInitialCheck rt fonts flagFetch urlFetch s).state

/-- One host step: an action runs if the view rendered from `s` enables it. -/
def hostStep (rt : Runtime) (s : AppState) (a : HostAction) : AppState :=
  if a.enabled (renderApp s) then a.run rt s else s

/-- The host state after a sequence of actions. -/
def hostRun (rt : Runtime) (actions : List HostAction) (s : AppState) : AppState :=
  actions.foldl (hostStep rt) s

/-! ## Content loader state (`WebViewScreen.js`) -/

/-- The React state of `WebViewScreen`. -/
structure LoaderState where
  hasError : Bool
  isLoading : Bool
  loadAttempts : Nat
deriving DecidableEq, Repr

/-- The state of a freshly mounted `WebViewScreen`. -/
def LoaderState.mount : LoaderState :=
  { hasError := false, isLoading := true, loadAttempts := 0 }

/-- Maximum number of retry attempts. -/
def MAX_RETRY_ATTEMPTS : Nat := 2

/-- The function `handleError` of `WebViewScreen.js` (lines 27-38), run against the
committed state. -/
def handleError (s : LoaderState) : LoaderState :=
  if s.loadAttempts < MAX_RETRY_ATTEMPTS then
    { s with loadAttempts := s.loadAttempts + 1, hasError := false, isLoading := true }
  else
    { s with hasError := true, isLoading := false }

/-- The three WebView callbacks that report a failure (lines 131-138, 153-156). -/
inductive FailureSignal where
  | onError
  | onHttpError
  | onContentProcessDidTerminate
deriving DecidableEq, Repr

/-- The body of each failure callback: a log line, then `handleError()`. -/
def FailureSignal.handle : FailureSignal → LoaderState → LoaderState
  | .onError, s => handleError s
  | .onHttpError, s => handleError s
  | .onContentProcessDidTerminate, s => handleError s

/-- What `WebViewScreen` returns from its render (lines 72-163): the terminal
error view, or the WebView with or without the loading overlay. -/
inductive LoaderView where
  | connectionFailed
  | webView (overlay : Bool)
deriving DecidableEq, Repr

/-- The render of `WebViewScreen` (lines 72-163). -/
def renderLoader (s : LoaderState) : LoaderView :=
  if s.hasError && decide (s.loadAttempts ≥ MAX_RETRY_ATTEMPTS) then .connectionFailed
  else .webView s.isLoading

/-! ## Content loader handlers and signals (`WebViewScreen.js`) -/

/-- A call that a handler of `WebViewScreen` makes outside its own state: on a
prop supplied by the host, or on the WebView ref. -/
inductive ExternalCall where
  | onFallbackToNative
  | reload
deriving DecidableEq, Repr

/-- The calls `handleError` (lines 27-38) makes on the props and on the ref, branch
by branch: both branches only call state setters.  The component destructures
the single prop `url` (line 15). -/
def handleErrorCalls (s : LoaderState) : List ExternalCall :=
  if s.loadAttempts < MAX_RETRY_ATTEMPTS then [] else []

/-- The state updates of `handleRetry` (lines 40-43). -/
def handleRetry (s : LoaderState) : LoaderState :=
  { s with loadAttempts := 0, hasError := false, isLoading := true }

/-- The calls `handleRetry` makes (lines 44-46): `reload()` when the WebView ref
is attached. -/
def handleRetryCalls (refAttached : Bool) : List ExternalCall :=
  if refAttached then [.reload] else []

/-- The `onLoadStart` callback (lines 139-143). -/
def onLoadStart (s : LoaderState) : LoaderState :=
  { s with isLoading := true, hasError := false }

/-- The `onLoadEnd` callback (lines 144-147). -/
def onLoadEnd (s : LoaderState) : LoaderState :=
  { s with isLoading := false }

/-- The `onLoadProgress` callback (lines 148-152), for the reported `progress`. -/
def onLoadProgress (progress : ℚ) (s : LoaderState) : LoaderState :=
  if progress = 1 then { s with isLoading := false } else s

/-- The body of the auto-retry effect (lines 62-69), run after a render of state
`s`: the delay of the timeout it schedules, `none` when its condition fails. -/
def autoRetryEffect (s : LoaderState) : Option Nat :=
  if s.hasError && decide (s.loadAttempts < MAX_RETRY_ATTEMPTS) then some 2000 else none

/-- The events that `WebViewScreen` handles: the WebView callbacks, the two
buttons of the terminal view, and the timeout of the auto-retry effect. -/
inductive Signal where
  | failure (f : FailureSignal)
  | onLoadStart
  | onLoadEnd
  | onLoadProgress (progress : ℚ)
  | tryAgain
  | useNativeApp
  | retryTimer

/-- The state after a signal is handled against the committed state `s`.
`handleLoadNativeApp` sets no state; the timeout callback runs `handleRetry`, and
only a scheduled timeout can fire. -/
def Signal.handle : Signal → LoaderState → LoaderState
  | .failure f, s => f.handle s
  | .onLoadStart, s => PoultryFarm.onLoadStart s
  | .onLoadEnd, s => PoultryFarm.onLoadEnd s
  | .onLoadProgress progress, s => PoultryFarm.onLoadProgress progress s
  | .tryAgain, s => handleRetry s
  | .useNativeApp, s => s
  | .retryTimer, s => if (autoRetryEffect s).isSome then handleRetry s else s

/-- The state after a sequence of signals, each handled against the state left
by the one before. -/
def runSignals (signals : List Signal) (s : LoaderState) : LoaderState :=
  signals.foldl (fun st sig => sig.handle st) s

/-- The invariant of the loader state: the attempt count is at most the ceiling,
and `hasError` is set only at the ceiling. -/
def LoaderInv (s : LoaderState) : Prop :=
  s.loadAttempts ≤ MAX_RETRY_ATTEMPTS ∧
    (s.hasError = true → MAX_RETRY_ATTEMPTS ≤ s.loadAttempts)

/-! ## The auto-retry effect and its timeout (`WebViewScreen.js`, lines 61-69) -/

/-- A `WebViewScreen` instance together with the timeouts its effect has created:
`pending` holds the ids of the timeouts of the JavaScript runtime that have
neither fired nor been cleared (their callback is `handleRetry`), `cleanup` the id
captured by the cleanup function that the last run of the effect returned
(`none` when it returned nothing), `nextTimer` the id that `setTimeout` returns
next. -/
structure LoaderInstance where
  state : LoaderState
  mounted : Bool
  pending : List Nat
  cleanup : Option Nat
  nextTimer : Nat
deriving DecidableEq, Repr

/-- The cleanup function of the effect, `() => clearTimeout(timer)`, run by React
before the effect runs again and at unmount. -/
def runCleanup (w : LoaderInstance) : LoaderInstance :=
  match w.cleanup with
  | some timer => { w with pending := w.pending.filter (fun t => t != timer), cleanup := none }
  | none => w

/-- One run of the effect (lines 62-69) after a render of `w.state`. -/
def runEffect (w : LoaderInstance) : LoaderInstance :=
  match autoRetryEffect w.state with
  | some _ =>
    { w with pending := w.nextTimer :: w.pending, cleanup := some w.nextTimer,
             nextTimer := w.nextTimer + 1 }
  | none => { w with cleanup := none }

/-- A state update and the render that follows it: the effect runs again, after
its cleanup, when one of its dependencies `[hasError, loadAttempts]` changed.
Setters of an unmounted component have no effect. -/
def commit (w : LoaderInstance) (s : LoaderState) : LoaderInstance :=
  if !w.mounted then w
  else if s.hasError = w.state.hasError ∧ s.loadAttempts = w.state.loadAttempts then
    { w with state := s }
  else runEffect (runCleanup { w with state := s })

/-- The first render of a `WebViewScreen` and the first run of its effect. -/
def LoaderInstance.mount : LoaderInstance :=
  runEffect { state := LoaderState.mount, mounted := true, pending := [], cleanup := none,
              nextTimer := 0 }

/-- Unmount: React runs the cleanup of the effect. -/
def unmount (w : LoaderInstance) : LoaderInstance :=
  { runCleanup w with mounted := false }

/-- The timeout `timer` elapses: if it is still pending, its callback runs
`handleRetry`. -/
def timerFires (timer : Nat) (w : LoaderInstance) : LoaderInstance :=
  if timer ∈ w.pending then
    commit { w with pending := w.pending.filter (fun t => t != timer) } (handleRetry w.state)
  else w

/-- What can happen to an instance: a signal of the WebView or of a button, a
timeout elapsing, an unmount. -/
inductive LoaderEvent where
  | signal (sig : Signal)
  | timer (id : Nat)
  | unmount

/-- The instance after an event.  The WebView and the buttons of an unmounted
component deliver no signal. -/
def LoaderEvent.apply : LoaderEvent → LoaderInstance → LoaderInstance
  | .signal sig, w => if w.mounted then commit w (sig.handle w.state) else w
  | .timer id, w => timerFires id w
  | .unmount, w => PoultryFarm.unmount w

/-- The instance after a sequence of events. -/
def runEvents (events : List LoaderEvent) (w : LoaderInstance) : LoaderInstance :=
  events.foldl (fun st e => e.apply st) w

/-- Every pending timeout is the one the current cleanup function clears. -/
def TimerInv (w : LoaderInstance) : Prop :=
  ∀ t ∈ w.pending, w.cleanup = some t

/-! ## Requests issued by `checkRemoteFlag` (`App.js`) -/

/-- The flag endpoint (line 15). -/
def FLAG_URL : String := "https://chikengame-df0a7-default-rtdb.firebaseio.com/flag.json"

/-- The locator endpoint (line 16). -/
def URL_CONFIG : String := "https://chikengame-df0a7-default-rtdb.firebaseio.com/url.json"

/-- The arguments of the `fetch` calls that `checkRemoteFlag` makes, in order:
line 63 always, line 85 inside the branch `flagData === true`, which is reached
only after the flag response passed the `ok` test and was read and parsed. -/
def checkRemoteFlagFetches (flagFetch : Fetch) : List String :=
  match flagFetch with
  | .transportError _ => [FLAG_URL]
  | .response ok _ body =>
    if !ok then [FLAG_URL]
    else
      match body with
      | .readError _ => [FLAG_URL]
      | .invalidJson => [FLAG_URL]
      | .json flagData =>
        match flagData with
        | .bool true => [FLAG_URL, URL_CONFIG]
        | _ => [FLAG_URL]

/-! ## The "Use Native App" button (`WebViewScreen.js`, lines 49-59) -/

/-- The names bound by the import statements of `WebViewScreen.js` (lines 1-13). -/
def webViewScreenImports : List String :=
  ["Ionicons", "StatusBar", "useEffect", "useRef", "useState", "ActivityIndicator",
   "StyleSheet", "Text", "TouchableOpacity", "View", "SafeAreaView", "WebView", "Colors"]

/-- How a call of a handler of `WebViewScreen` ends: the state it leaves, the
alerts it has presented (title and message), its calls on props and ref, and
the message of the exception it raises, if any. -/
structure HandlerRun where
  state : LoaderState
  alerts : List (String × String)
  calls : List ExternalCall
  thrown : Option String
deriving DecidableEq, Repr

/-- The function `handleLoadNativeApp` (lines 49-59).  Its only statement
evaluates the identifier `Alert`, which resolves if an import binds it (the
React Native runtime defines no global of that name); otherwise the engine
raises a `ReferenceError`, whose wording for a name is `referenceError`. -/
def handleLoadNativeApp (referenceError : String → String) (s : LoaderState) : HandlerRun :=
  if "Alert" ∈ webViewScreenImports then
    { state := s,
      alerts := [("Switch to Native App",
                  "Please restart the application to use the native version.")],
      calls := [], thrown := none }
  else
    { state := s, alerts := [], calls := [], thrown := some (referenceError "Alert") }

/-! ## Numbers and text input (farm screens) -/

/-- A JavaScript number as the farm screens observe it: `NaN`, the two
infinities, or a finite value.  Rounding of finite results is not modelled. -/
inductive JsNumber where
  | nan
  | negInf
  | finite (q : ℚ)
  | posInf
deriving DecidableEq

namespace JsNumber

/-- The comparison `a < b`. -/
def lt : JsNumber → JsNumber → Bool
  | nan, _ => false
  | _, nan => false
  | negInf, negInf => false
  | negInf, _ => true
  | _, negInf => false
  | posInf, _ => false
  | finite _, posInf => true
  | finite a, finite b => decide (a < b)

/-- The comparison `a <= b`. -/
def le : JsNumber → JsNumber → Bool
  | nan, _ => false
  | _, nan => false
  | negInf, _ => true
  | _, posInf => true
  | posInf, _ => false
  | finite _, negInf => false
  | finite a, finite b => decide (a ≤ b)

/-- The sum `a + b` of two numbers. -/
def add : JsNumber → JsNumber → JsNumber
  | nan, _ => nan
  | _, nan => nan
  | posInf, negInf => nan
  | negInf, posInf => nan
  | posInf, _ => posInf
  | _, posInf => posInf
  | negInf, _ => negInf
  | _, negInf => negInf
  | finite a, finite b => finite (a + b)

/-- The test `isNaN(a)`. -/
def isNaN : JsNumber → Bool
  | nan => true
  | _ => false

/-- Truthiness of a number: false for `NaN` and zero. -/
def truthy : JsNumber → Bool
  | nan => false
  | finite q => decide (q ≠ 0)
  | _ => true

end JsNumber

/-- White space in the sense of `String.prototype.trim` and `parseInt`, by code
point. -/
def isJsWhiteSpace (c : Char) : Bool :=
  c.toNat ∈ [9, 10, 11, 12, 13, 32, 160, 5760, 8232, 8233, 8239, 8287, 12288, 65279] ||
    (decide (8192 ≤ c.toNat) && decide (c.toNat ≤ 8202))

/-- The call `s.trim()`. -/
def jsTrim (s : String) : String :=
  ⟨((s.data.dropWhile isJsWhiteSpace).reverse.dropWhile isJsWhiteSpace).reverse⟩

/-- The value of a digit in radix 10 or 16, `none` for any other character. -/
def digitValue (radix : Nat) (c : Char) : Option Nat :=
  if 48 ≤ c.toNat ∧ c.toNat ≤ 57 then some (c.toNat - 48)
  else if radix = 16 ∧ 97 ≤ c.toNat ∧ c.toNat ≤ 102 then some (c.toNat - 87)
  else if radix = 16 ∧ 65 ≤ c.toNat ∧ c.toNat ≤ 70 then some (c.toNat - 55)
  else none

/-- The longest leading run of digits of `cs`, as a number: `none` when `cs`
does not start with a digit. -/
def leadingDigits (radix : Nat) (cs : List Char) : Option Nat :=
  match (cs.takeWhile (fun c => (digitValue radix c).isSome)).filterMap (digitValue radix) with
  | [] => none
  | ds => some (ds.foldl (fun acc d => acc * radix + d) 0)

/-- The call `parseInt(s)` without a radix: leading white space is skipped, a
sign is read, a prefix `0x` or `0X` selects radix 16, the leading digits are
read, and the result is `NaN` when there is none. -/
def parseInt (s : String) : JsNumber :=
  let cs := s.data.dropWhile isJsWhiteSpace
  let negative := (cs.head?.map Char.toNat) == some 45
  let unsigned :=
    if (cs.head?.map Char.toNat) == some 45 || (cs.head?.map Char.toNat) == some 43 then cs.tail
    else cs
  let hex := match unsigned with
    | c0 :: c1 :: _ => c0.toNat == 48 && (c1.toNat == 120 || c1.toNat == 88)
    | _ => false
  let magnitude :=
    if hex then leadingDigits 16 (unsigned.drop 2) else leadingDigits 10 unsigned
  match magnitude with
  | none => .nan
  | some n => if negative then .finite (-(n : ℚ)) else .finite (n : ℚ)

/-! ## The add-batch form (`AddBatchScreen.js`) -/

/-- The state `formData` of `AddBatchScreen` (lines 27-32); the arrival date is
held as the text `toISOString()` gives for it. -/
structure BatchForm where
  breed : String
  quantity : String
  arrivalDate : String
  notes : String
deriving DecidableEq, Repr

/-- The object `batchData` that `handleSubmit` builds (lines 68-74). -/
structure BatchData where
  breed : String
  quantity : JsNumber
  arrivalDate : String
  notes : String
  currentQuantity : JsNumber
deriving DecidableEq

/-- The function `validateForm` of `AddBatchScreen.js` (lines 50-60): its result
(each `false` comes with an alert). -/
def validateForm (formData : BatchForm) : Bool :=
  if jsTrim formData.breed = "" then false
  else if formData.quantity = "" || (parseInt formData.quantity).le (.finite 0) then false
  else true

/-- The function `handleSubmit` of `AddBatchScreen.js` (lines 62-88): the argument
it passes to `addHerdBatch`, `none` when it returns without calling it. -/
def handleSubmit (formData : BatchForm) : Option BatchData :=
  if !validateForm formData then none
  else
    some { breed := jsTrim formData.breed,
           quantity := parseInt formData.quantity,
           arrivalDate := formData.arrivalDate,
           notes := jsTrim formData.notes,
           currentQuantity := parseInt formData.quantity }

/-! ## Inventory (`AppContext.js`, `InventoryScreen.js`) -/

/-- An inventory item: the fields of the default items (`InventoryScreen.js`, lines
24-30) and those that `Storage.addItem` and `Storage.updateItem` add.  A field
that an object does not have is `none`. -/
structure InventoryItem where
  id : String
  name : Option String
  type : Option String
  currentStock : Option JsNumber
  unit : Option String
  minStock : Option JsNumber
  createdAt : Option String
  synced : Option Bool
  updatedAt : Option String
deriving DecidableEq

/-- The argument `updates` of `updateInventory`: both call sites pass an object
with the single field `currentStock` (`InventoryScreen.js`, lines 44 and 66). -/
structure StockUpdates where
  currentStock : JsNumber
deriving DecidableEq

/-- The function `Storage.addItem` (`AppContext.js`, lines 39-54) on the data read
for the key: `now` is `Date.now()` and `iso` is `new Date().toISOString()`.  The
fields `id`, `createdAt` and `synced` are written after the spread of `newItem`. -/
def Storage.addItem (now : Nat) (iso : String) (currentData : List InventoryItem)
    (newItem : InventoryItem) : List InventoryItem :=
  currentData ++ [{ newItem with id := toString now, createdAt := some iso,
                                 synced := some false }]

/-- The function `Storage.updateItem` (`AppContext.js`, lines 56-68) on the data read
for the key. -/
def Storage.updateItem (iso : String) (currentData : List InventoryItem) (itemId : String)
    (updates : StockUpdates) : List InventoryItem :=
  currentData.map (fun item =>
    if item.id = itemId then
      { item with currentStock := some updates.currentStock, updatedAt := some iso }
    else item)

/-- The function `updateInventory` (`AppContext.js`, lines 256-273): `inventory` is
`state.inventory`, `stored` is what `Storage.getData` yields for the inventory
key; the result is the list that `SET_INVENTORY` makes the new `state.inventory`. -/
def updateInventory (now : Nat) (iso : String) (inventory stored : List InventoryItem)
    (itemId : String) (updates : StockUpdates) : List InventoryItem :=
  match inventory.find? (fun item => item.id == itemId) with
  | some _ => Storage.updateItem iso stored itemId updates
  | none =>
    Storage.addItem now iso stored
      { id := itemId, name := none, type := none, currentStock := some updates.currentStock,
        unit := none, minStock := none, createdAt := none, synced := none, updatedAt := none }

/-- The list `defaultItems` of `InventoryScreen.js` (lines 24-30). -/
def defaultItems : List InventoryItem :=
  [ { id := "1", name := some "Layer Feed", type := some "feed",
      currentStock := some (.finite 0), unit := some "kg", minStock := some (.finite 100),
      createdAt := none, synced := none, updatedAt := none },
    { id := "2", name := some "Starter Feed", type := some "feed",
      currentStock := some (.finite 0), unit := some "kg", minStock := some (.finite 50),
      createdAt := none, synced := none, updatedAt := none },
    { id := "3", name := some "Grower Feed", type := some "feed",
      currentStock := some (.finite 0), unit := some "kg", minStock := some (.finite 75),
      createdAt := none, synced := none, updatedAt := none },
    { id := "4", name := some "Egg Cartons", type := some "supplies",
      currentStock := some (.finite 0), unit := some "pcs", minStock := some (.finite 200),
      createdAt := none, synced := none, updatedAt := none },
    { id := "5", name := some "Vaccines", type := some "medical",
      currentStock := some (.finite 0), unit := some "doses", minStock := some (.finite 10),
      createdAt := none, synced := none, updatedAt := none } ]

/-- What a stock handler of `InventoryScreen` does: it returns at once, it shows
the error alert and returns, or it calls `updateInventory(itemId, { currentStock })`. -/
inductive StockOutcome where
  | ignored
  | rejected (title message : String)
  | update (itemId : String) (currentStock : JsNumber)
deriving DecidableEq

/-- The expression `item.currentStock || 0`. -/
def stockOrZero : Option JsNumber → JsNumber
  | some v => if v.truthy then v else .finite 0
  | none => .finite 0

/-- The function `handleUpdateStock` of `InventoryScreen.js` (lines 32-49), up to its
call of `updateInventory`. -/
def handleUpdateStock (inventory : List InventoryItem) (itemId : String)
    (adjustment : JsNumber) : StockOutcome :=
  match (inventory.find? (fun i => i.id == itemId)).orElse
      (fun _ => defaultItems.find? (fun i => i.id == itemId)) with
  | none => .ignored
  | some item =>
    if ((stockOrZero item.currentStock).add adjustment).lt (.finite 0) then
      .rejected "Error" "Stock cannot be negative"
    else .update itemId ((stockOrZero item.currentStock).add adjustment)

/-- The adjustments of the four stock buttons (`InventoryScreen.js`, lines 150-171). -/
def stockButtons : List JsNumber :=
  [.finite (-10), .finite (-1), .finite 1, .finite 10]

/-- The function `handleSaveManualEdit` of `InventoryScreen.js` (lines 56-73), up to
its call of `updateInventory`; `parseFloat` is the function of the engine. -/
def handleSaveManualEdit (parseFloat : String → JsNumber) (editingItem : Option InventoryItem)
    (newQuantity : String) : StockOutcome :=
  match editingItem with
  | none => .ignored
  | some item =>
    if (parseFloat newQuantity).isNaN || (parseFloat newQuantity).lt (.finite 0) then
      .rejected "Error" "Please enter valid quantity"
    else .update item.id (parseFloat newQuantity)

/-! ## Herd batches and productivity records (`AppContext.js`, `HerdListScreen.js`) -/

/-- A herd batch: `batchData` of `AddBatchScreen` with the fields `Storage.addItem`
adds. -/
structure HerdBatch where
  id : String
  breed : String
  quantity : JsNumber
  arrivalDate : String
  notes : String
  currentQuantity : JsNumber
  createdAt : String
  synced : Bool
deriving DecidableEq

/-- A productivity record: `recordData` of `BatchDetailScreen` (lines 59-65) with the
fields `Storage.addItem` adds. -/
structure ProductivityRecord where
  id : String
  batchId : String
  date : String
  eggsCount : JsNumber
  feedConsumed : JsNumber
  notes : String
  createdAt : String
  synced : Bool
deriving DecidableEq

/-- The state of `AppProvider` (`initialState`, lines 96-105); financial records,
the sync queue and the settings are kept as parsed JSON. -/
structure AppData where
  herdBatches : List HerdBatch
  productivity : List ProductivityRecord
  inventory : List InventoryItem
  financialRecords : List Json
  syncQueue : List Json
  settings : Json
  isLoading : Bool
  isOnline : Bool

/-- The actions of `appReducer`, by their `type`, with their payload. -/
inductive AppAction where
  | SET_LOADING (payload : Bool)
  | SET_HERD_BATCHES (payload : List HerdBatch)
  | ADD_HERD_BATCH (payload : HerdBatch)
  | UPDATE_HERD_BATCH (payload : HerdBatch)
  | DELETE_HERD_BATCH (payload : String)
  | SET_PRODUCTIVITY (payload : List ProductivityRecord)
  | ADD_PRODUCTIVITY_RECORD (payload : ProductivityRecord)
  | DELETE_PRODUCTIVITY_FOR_BATCH (payload : String)
  | SET_INVENTORY (payload : List InventoryItem)
  | UPDATE_INVENTORY_ITEM (payload : InventoryItem)
  | ADD_INVENTORY_ITEM (payload : InventoryItem)
  | SET_FINANCIAL_RECORDS (payload : List Json)
  | ADD_FINANCIAL_RECORD (payload : Json)
  | SET_ONLINE_STATUS (payload : Bool)

/-- The function `appReducer` of `AppContext.js` (lines 107-170). -/
def appReducer (state : AppData) : AppAction → AppData
  | .SET_LOADING payload => { state with isLoading := payload }
  | .SET_HERD_BATCHES payload => { state with herdBatches := payload }
  | .ADD_HERD_BATCH payload => { state with herdBatches := state.herdBatches ++ [payload] }
  | .UPDATE_HERD_BATCH payload =>
    { state with herdBatches := state.herdBatches.map (fun batch =>
        if batch.id = payload.id then payload else batch) }
  | .DELETE_HERD_BATCH payload =>
    { state with herdBatches := state.herdBatches.filter (fun batch => batch.id != payload) }
  | .SET_PRODUCTIVITY payload => { state with productivity := payload }
  | .ADD_PRODUCTIVITY_RECORD payload =>
    { state with productivity := state.productivity ++ [payload] }
  | .DELETE_PRODUCTIVITY_FOR_BATCH payload =>
    { state with productivity :=
        state.productivity.filter (fun record => record.batchId != payload) }
  | .SET_INVENTORY payload => { state with inventory := payload }
  | .UPDATE_INVENTORY_ITEM payload =>
    { state with inventory := state.inventory.map (fun item =>
        if item.id = payload.id then payload else item) }
  | .ADD_INVENTORY_ITEM payload => { state with inventory := state.inventory ++ [payload] }
  | .SET_FINANCIAL_RECORDS payload => { state with financialRecords := payload }
  | .ADD_FINANCIAL_RECORD payload =>
    { state with financialRecords := state.financialRecords ++ [payload] }
  | .SET_ONLINE_STATUS payload => { state with isOnline := payload }

/-- The function `Storage.deleteItem` (`AppContext.js`, lines 70-80) for the herd
key: `currentData` is what `Storage.getData` yields, `none` when that value is
not an array, in which case `filter` raises and the function returns `null`. -/
def Storage.deleteItem (currentData : Option (List HerdBatch)) (itemId : String) :
    Option (List HerdBatch) :=
  currentData.map (fun data => data.filter (fun item => item.id != itemId))

/-- The function `Storage.deleteProductivityForBatch` (`AppContext.js`, lines 83-93),
with the same convention. -/
def Storage.deleteProductivityForBatch (currentData : Option (List ProductivityRecord))
    (batchId : String) : Option (List ProductivityRecord) :=
  currentData.map (fun data => data.filter (fun record => record.batchId != batchId))

/-- The function `deleteHerdBatch` (`AppContext.js`, lines 226-244): its result and
the state after its two dispatches.  The result of
`Storage.deleteProductivityForBatch` is not inspected. -/
def deleteHerdBatch (storedBatches : Option (List HerdBatch)) (state : AppData)
    (batchId : String) : Bool × AppData :=
  match Storage.deleteItem storedBatches batchId with
  | none => (false, state)
  | some _ =>
    (true, appReducer (appReducer state (.DELETE_HERD_BATCH batchId))
      (.DELETE_PRODUCTIVITY_FOR_BATCH batchId))

/-- The function `getProductivityRecordsCount` of `HerdListScreen.js` (lines 34-36). -/
def getProductivityRecordsCount (productivity : List ProductivityRecord) (batchId : String) :
    Nat :=
  (productivity.filter (fun record => record.batchId == batchId)).length

/-! ## Sample farm data -/

/-- A batch with the given `id`. -/
def sampleBatch (id : String) : HerdBatch :=
  { id := id, breed := "ISA Brown", quantity := .finite 100,
    arrivalDate := "2025-11-19T22:00:00.000Z", notes := "", currentQuantity := .finite 100,
    createdAt := "2025-11-20T08:00:00.000Z", synced := false }

/-- A productivity record with the given `id`, of the batch `batchId`. -/
def sampleRecord (id batchId : String) : ProductivityRecord :=
  { id := id, batchId := batchId, date := "2025-11-21", eggsCount := .finite 90,
    feedConsumed := .finite 12, notes := "Daily record for 21.11.2025",
    createdAt := "2025-11-21T18:00:00.000Z", synced := false }

/-- A state with the batches `b1`, `b2` and three records, two of them of `b1`. -/
def sampleData : AppData :=
  { herdBatches := [sampleBatch "b1", sampleBatch "b2"],
    productivity := [sampleRecord "r1" "b1", sampleRecord "r2" "b2", sampleRecord "r3" "b1"],
    inventory := [], financialRecords := [], syncQueue := [], settings := .obj [],
    isLoading := false, isOnline := false }

/-- The default item `"1"` while it is edited by hand. -/
def sampleUpdateItem : InventoryItem :=
  { id := "1", name := some "Layer Feed", type := some "feed",
    currentStock := some (.finite 0), unit := some "kg", minStock := some (.finite 100),
    createdAt := none, synced := none, updatedAt := none }

/-! ## Property order of a parsed object -/

/-- The array index that a property key denotes, if any: a key is an array index
when it is the decimal text, without sign or leading zero, of an integer from 0
to 2^32 - 2. -/
def arrayIndex (key : String) : Option Nat :=
  if key.data ≠ [] ∧
      key.data.all (fun c => decide (48 ≤ c.toNat) && decide (c.toNat ≤ 57)) ∧
      (key.data.length = 1 ∨ key.data.head?.map Char.toNat ≠ some 48) then
    if key.data.foldl (fun acc c => acc * 10 + (c.toNat - 48)) 0 ≤ 4294967294 then
      some (key.data.foldl (fun acc c => acc * 10 + (c.toNat - 48)) 0)
    else none
  else none

/-- Insertion of an indexed property into a list sorted by ascending index. -/
def insertByIndex (x : Nat × (String × Json)) :
    List (Nat × (String × Json)) → List (Nat × (String × Json))
  | [] => [x]
  | y :: rest => if x.1 ≤ y.1 then x :: y :: rest else y :: insertByIndex x rest

/-- The order in which the engine enumerates the own properties of an object
whose properties were created in the order `inserted` (for `JSON.parse`, the
order of the members in the text): the properties whose key is an array index,
by ascending index, then the others in the order of their creation. -/
def enumerationOrder (inserted : List (String × Json)) : List (String × Json) :=
  (((inserted.filterMap (fun p => (arrayIndex p.1).map (fun i => (i, p)))).foldr
      insertByIndex []).map (fun x => x.2)) ++
    inserted.filter (fun p => (arrayIndex p.1).isNone)

/-- The value `JSON.parse` yields for an object text whose members are, in the
order of the text, `inserted` (keys distinct). -/
def parseObject (inserted : List (String × Json)) : Json :=
  .obj (enumerationOrder inserted)

/-! ## The spec's reading of the locator scan -/

/-- Spec rule (c), in the spec's words: scan the values in insertion order and
take the first value that is a string beginning with `http`. -/
def specScan : List Json → Option String
  | [] => none
  | .str v :: rest => if startsWith v "http" then some v else specScan rest
  | _ :: rest => specScan rest

/-! ## Auxiliary lemmas -/

theorem startsWith_http_ne_empty (u : String) (h : startsWith u "http" = true) : u ≠ "" := by
  intro hu
  subst hu
  revert h
  decide

theorem acceptFinalUrl_none (rt : Runtime) (s : AppState) :
    acceptFinalUrl rt none s = ⟨s, some "No valid URL found in configuration"⟩ := rfl

theorem acceptFinalUrl_str (rt : Runtime) (u : String) (s : AppState) :
    acceptFinalUrl rt (some (.str u)) s =
      if startsWith u "http" then
        ⟨{ s with webViewUrl := u, shouldLoadWebView := true, webViewFailed := false }, none⟩
      else ⟨s, some "No valid URL found in configuration"⟩ := by
  by_cases h : startsWith u "http" = true
  · have hu := startsWith_http_ne_empty u h
    simp [acceptFinalUrl, Json.truthy, h, hu]
  · rw [if_neg h]
    by_cases hu : u = ""
    · simp [acceptFinalUrl, Json.truthy, hu]
    · simp [acceptFinalUrl, Json.truthy, h, hu]

theorem acceptFinalUrl_dichotomy (rt : Runtime) (f : Option Json) (s : AppState) :
    (∃ u, f = some (.str u) ∧ startsWith u "http" = true ∧
      acceptFinalUrl rt f s =
        ⟨{ s with webViewUrl := u, shouldLoadWebView := true, webViewFailed := false },
          none⟩) ∨
    (∃ m, acceptFinalUrl rt f s = ⟨s, some m⟩ ∧
      ∀ u, f = some (.str u) → startsWith u "http" = false) := by
  cases f with
  | none => exact Or.inr ⟨_, rfl, by intro u hu; cases hu⟩
  | some v =>
    cases v with
    | str u =>
      by_cases h : startsWith u "http" = true
      · exact Or.inl ⟨u, rfl, h, by rw [acceptFinalUrl_str, if_pos h]⟩
      · refine Or.inr ⟨_, by rw [acceptFinalUrl_str, if_neg h], ?_⟩
        intro u2 hu2
        cases hu2
        simpa using h
    | null => exact Or.inr ⟨_, rfl, by intro u hu; cases hu⟩
    | bool b =>
      cases b
      · exact Or.inr ⟨_, rfl, by intro u hu; cases hu⟩
      · exact Or.inr ⟨_, rfl, by intro u hu; cases hu⟩
    | num q =>
      by_cases hq : q = 0
      · exact Or.inr ⟨"No valid URL found in configuration",
          by simp [acceptFinalUrl, Json.truthy, hq], by intro u hu; cases hu⟩
      · exact Or.inr ⟨rt.notAFunction (.num q),
          by simp [acceptFinalUrl, Json.truthy, hq], by intro u hu; cases hu⟩
    | arr items => exact Or.inr ⟨_, rfl, by intro u hu; cases hu⟩
    | obj props => exact Or.inr ⟨_, rfl, by intro u hu; cases hu⟩

theorem checkRemoteFlag_of_try_none (rt : Runtime) (flagFetch urlFetch : Fetch)
    (s t : AppState) (h : checkRemoteFlagTry rt flagFetch urlFetch s = ⟨t, none⟩) :
    checkRemoteFlag rt flagFetch urlFetch s = ⟨checkRemoteFlagFinally t, none⟩ := by
  simp [checkRemoteFlag, h]

theorem checkRemoteFlag_of_try_some (rt : Runtime) (flagFetch urlFetch : Fetch)
    (s t : AppState) (m : String)
    (h : checkRemoteFlagTry rt flagFetch urlFetch s = ⟨t, some m⟩) :
    checkRemoteFlag rt flagFetch urlFetch s =
      ⟨checkRemoteFlagFinally (checkRemoteFlagCatch m t), none⟩ := by
  simp [checkRemoteFlag, h]

theorem checkRemoteFlagTry_flag_true (rt : Runtime) (status : Nat) (urlFetch : Fetch)
    (s : AppState) :
    checkRemoteFlagTry rt (.response true status (.json (.bool true))) urlFetch s =
      fetchLocator rt urlFetch { s with loading := true } := rfl

theorem fetchLocator_json (rt : Runtime) (status : Nat) (urlData : Json) (s : AppState) :
    fetchLocator rt (.response true status (.json urlData)) s =
      acceptFinalUrl rt (extractFinalUrl urlData) s := rfl

theorem getProp_mem_values (props : List (String × Json)) (key : String) (v : Json)
    (h : (Json.obj props).getProp key = some v) : v ∈ (Json.obj props).values := by
  simp only [Json.getProp, Option.map_eq_some'] at h
  obtain ⟨p, hp, rfl⟩ := h
  simp only [Json.values, List.mem_map]
  exact ⟨p, List.mem_of_find?_eq_some hp, rfl⟩

theorem extractFinalUrl_obj_url (props : List (String × Json))
    (h : truthyOpt ((Json.obj props).getProp "url") = true) :
    extractFinalUrl (.obj props) = (Json.obj props).getProp "url" := by
  simp [extractFinalUrl, Json.truthy, h]

theorem extractFinalUrl_obj_scan (props : List (String × Json))
    (h : truthyOpt ((Json.obj props).getProp "url") = false) :
    extractFinalUrl (.obj props) =
      match (Json.obj props).values.find? Json.isString with
      | some (.str stringValue) =>
        if startsWith stringValue "http" then some (.str stringValue) else none
      | _ => none := by
  simp only [extractFinalUrl, Json.truthy, h, Json.isObjectType, Bool.and_false,
    Bool.false_eq_true, if_false, Bool.and_self, if_true]
  split
  · next sv hsv =>
    by_cases hp : startsWith sv "http" = true
    · have := startsWith_http_ne_empty sv hp
      simp [hp, this]
    · simp [hp]
  · rfl

theorem extractFinalUrl_obj_mem (props : List (String × Json)) (v : Json)
    (h : extractFinalUrl (.obj props) = some v) : v ∈ (Json.obj props).values := by
  by_cases hurl : truthyOpt ((Json.obj props).getProp "url") = true
  · rw [extractFinalUrl_obj_url props hurl] at h
    exact getProp_mem_values props "url" v h
  · have hurl2 : truthyOpt ((Json.obj props).getProp "url") = false := by simpa using hurl
    rw [extractFinalUrl_obj_scan props hurl2] at h
    split at h
    · next sv hsv =>
      by_cases hp : startsWith sv "http" = true
      · rw [if_pos hp] at h
        cases h
        exact List.mem_of_find?_eq_some hsv
      · rw [if_neg hp] at h
        cases h
    · cases h

theorem checkRemoteFlag_flag_other (rt : Runtime) (status : Nat) (flagData : Json)
    (urlFetch : Fetch) (s : AppState) (hflag : flagData ≠ .bool true) :
    checkRemoteFlag rt (.response true status (.json flagData)) urlFetch s =
      ⟨{ s with loading := false, appReady := true, shouldLoadWebView := false,
                webViewFailed := false }, none⟩ := by
  cases flagData with
  | bool b =>
    cases b
    · simp [checkRemoteFlag, checkRemoteFlagTry, checkRemoteFlagFinally]
    · exact absurd rfl hflag
  | _ => simp [checkRemoteFlag, checkRemoteFlagTry, checkRemoteFlagFinally]

theorem checkRemoteFlag_locator_json (rt : Runtime) (status status2 : Nat) (urlData : Json)
    (s : AppState) :
    checkRemoteFlagTry rt (.response true status (.json (.bool true)))
        (.response true status2 (.json urlData)) s =
      acceptFinalUrl rt (extractFinalUrl urlData) { s with loading := true } := rfl

theorem checkRemoteFlag_scan (rt : Runtime) (status status2 : Nat)
    (props : List (String × Json)) (v : String) (s : AppState)
    (hurl : truthyOpt ((Json.obj props).getProp "url") = false)
    (hfirst : (Json.obj props).values.find? Json.isString = some (.str v)) :
    checkRemoteFlag rt (.response true status (.json (.bool true)))
        (.response true status2 (.json (.obj props))) s =
      if startsWith v "http" then
        ⟨{ s with loading := false, appReady := true, webViewUrl := v,
                  shouldLoadWebView := true, webViewFailed := false }, none⟩
      else
        ⟨{ s with loading := false, appReady := true, shouldLoadWebView := false,
                  webViewFailed := false,
                  error := some ("Failed to check updates: " ++
                  "No valid URL found in configuration") }, none⟩ := by
  have hex := extractFinalUrl_obj_scan props hurl
  rw [hfirst] at hex
  by_cases hp : startsWith v "http" = true
  · simp only [hp, if_true] at hex ⊢
    rw [checkRemoteFlag_of_try_none rt _ _ s _
      ((checkRemoteFlag_locator_json rt status status2 (.obj props) s).trans
        (by rw [hex, acceptFinalUrl_str, if_pos hp]))]
    rfl
  · have hp2 : startsWith v "http" = false := by simpa using hp
    simp only [hp2, Bool.false_eq_true, if_false] at hex ⊢
    rw [checkRemoteFlag_of_try_some rt _ _ s _ _
      ((checkRemoteFlag_locator_json rt status status2 (.obj props) s).trans
        (by rw [hex, acceptFinalUrl_none]))]
    rfl

theorem loaderInv_mount : LoaderInv LoaderState.mount := by
  constructor
  · decide
  · intro h
    cases h

theorem loaderInv_handleError (s : LoaderState) (h : LoaderInv s) : LoaderInv (handleError s) := by
  unfold handleError
  by_cases hlt : s.loadAttempts < MAX_RETRY_ATTEMPTS
  · rw [if_pos hlt]
    constructor
    · exact hlt
    · intro hf
      cases hf
  · rw [if_neg hlt]
    exact ⟨h.1, fun _ => Nat.le_of_not_lt hlt⟩

theorem loaderInv_handleRetry (s : LoaderState) : LoaderInv (handleRetry s) := by
  constructor
  · exact Nat.zero_le _
  · intro hf
    cases hf

theorem loaderInv_handle (sig : Signal) (s : LoaderState) (h : LoaderInv s) :
    LoaderInv (sig.handle s) := by
  cases sig with
  | failure f => cases f <;> exact loaderInv_handleError s h
  | onLoadStart =>
    refine ⟨h.1, ?_⟩
    intro hf
    cases hf
  | onLoadEnd => exact h
  | onLoadProgress progress =>
    show LoaderInv (onLoadProgress progress s)
    unfold onLoadProgress
    split
    · exact h
    · exact h
  | tryAgain => exact loaderInv_handleRetry s
  | useNativeApp => exact h
  | retryTimer =>
    show LoaderInv (if (autoRetryEffect s).isSome then handleRetry s else s)
    split
    · exact loaderInv_handleRetry s
    · exact h

theorem loaderInv_runSignals (signals : List Signal) (s : LoaderState) (h : LoaderInv s) :
    LoaderInv (runSignals signals s) := by
  induction signals generalizing s with
  | nil => exact h
  | cons sig rest ih => exact ih (sig.handle s) (loaderInv_handle sig s h)

theorem hasError_false_of_not_connectionFailed (s : LoaderState) (h : LoaderInv s)
    (hview : renderLoader s ≠ .connectionFailed) : s.hasError = false := by
  cases herr : s.hasError with
  | false => rfl
  | true =>
    exfalso
    apply hview
    have hge := h.2 herr
    simp [renderLoader, herr, hge]

theorem failed_message_ne_empty (m : String) : "Failed to check updates: " ++ m ≠ "" := by
  intro h
  have hlen := congrArg String.length h
  simp only [String.length_append] at hlen
  have hpos : 0 < "Failed to check updates: ".length := by decide
  have hzero : ("" : String).length = 0 := rfl
  omega

theorem fetchLocator_fontsLoaded (rt : Runtime) (urlFetch : Fetch) (s : AppState) :
    (fetchLocator rt urlFetch s).state.fontsLoaded = s.fontsLoaded := by
  rcases urlFetch with m | ⟨ok, status, body⟩
  · rfl
  · cases ok
    · rfl
    · cases body with
      | readError m => rfl
      | invalidJson => rfl
      | json urlData =>
        rw [fetchLocator_json]
        rcases acceptFinalUrl_dichotomy rt (extractFinalUrl urlData) s with
          ⟨u, _, _, heq⟩ | ⟨m, heq, _⟩ <;> rw [heq]

theorem checkRemoteFlagTry_fontsLoaded (rt : Runtime) (flagFetch urlFetch : Fetch)
    (s : AppState) :
    (checkRemoteFlagTry rt flagFetch urlFetch s).state.fontsLoaded = s.fontsLoaded := by
  rcases flagFetch with m | ⟨ok, status, body⟩
  · rfl
  · cases ok
    · rfl
    · cases body with
      | readError m => rfl
      | invalidJson => rfl
      | json flagData =>
        cases flagData with
        | bool b =>
          cases b
          · rfl
          · rw [checkRemoteFlagTry_flag_true, fetchLocator_fontsLoaded]
        | _ => rfl

theorem hostStep_native (rt : Runtime) (s : AppState) (a : HostAction)
    (h : renderApp s = .nativeNavigator) : hostStep rt s a = s := by
  cases a <;> simp [hostStep, HostAction.enabled, h]

theorem hostRun_native (rt : Runtime) (actions : List HostAction) (s : AppState)
    (h : renderApp s = .nativeNavigator) : hostRun rt actions s = s := by
  induction actions with
  | nil => rfl
  | cons a rest ih =>
    show hostRun rt rest (hostStep rt s a) = s
    rw [hostStep_native rt s a h]
    exact ih

theorem renderApp_fallback (s : AppState) (url : String)
    (h : renderApp s = .webViewScreen url) :
    renderApp (handleWebViewFallback s) = .nativeNavigator := by
  rcases s with ⟨fl, ar, sw, u, ld, er, wf⟩
  cases fl <;> cases ar <;> cases ld <;> cases sw <;> cases wf <;>
    simp_all [renderApp, handleWebViewFallback]

theorem runCleanup_pending (w : LoaderInstance) (h : TimerInv w) :
    (runCleanup w).pending = [] := by
  unfold runCleanup
  cases hc : w.cleanup with
  | none =>
    apply List.eq_nil_iff_forall_not_mem.mpr
    intro t ht
    have := h t ht
    rw [hc] at this
    cases this
  | some timer =>
    show w.pending.filter (fun t => t != timer) = []
    rw [List.filter_eq_nil_iff]
    intro t ht
    have := h t ht
    rw [hc] at this
    cases this
    simp

theorem timerInv_of_pending_nil (w : LoaderInstance) (h : w.pending = []) : TimerInv w := by
  intro t ht
  rw [h] at ht
  cases ht

theorem timerInv_runEffect (w : LoaderInstance) (h : w.pending = []) :
    TimerInv (runEffect w) := by
  unfold runEffect
  cases autoRetryEffect w.state with
  | none => exact timerInv_of_pending_nil _ h
  | some d =>
    intro t ht
    have : t = w.nextTimer := by simpa [h] using ht
    rw [this]

theorem timerInv_commit (w : LoaderInstance) (s : LoaderState) (h : TimerInv w) :
    TimerInv (commit w s) := by
  unfold commit
  split
  · exact h
  · split
    · exact h
    · apply timerInv_runEffect
      exact runCleanup_pending { w with state := s } h

theorem timerInv_unmount (w : LoaderInstance) (h : TimerInv w) : TimerInv (unmount w) :=
  timerInv_of_pending_nil _ (runCleanup_pending w h)

theorem timerInv_timerFires (timer : Nat) (w : LoaderInstance) (h : TimerInv w) :
    TimerInv (timerFires timer w) := by
  unfold timerFires
  split
  · apply timerInv_commit
    intro t ht
    exact h t (List.mem_of_mem_filter ht)
  · exact h

theorem timerInv_apply (e : LoaderEvent) (w : LoaderInstance) (h : TimerInv w) :
    TimerInv (e.apply w) := by
  cases e with
  | signal sig =>
    show TimerInv (if w.mounted then commit w (sig.handle w.state) else w)
    split
    · exact timerInv_commit w _ h
    · exact h
  | timer id => exact timerInv_timerFires id w h
  | unmount => exact timerInv_unmount w h

theorem timerInv_runEvents (events : List LoaderEvent) (w : LoaderInstance) (h : TimerInv w) :
    TimerInv (runEvents events w) := by
  induction events generalizing w with
  | nil => exact h
  | cons e rest ih => exact ih (e.apply w) (timerInv_apply e w h)

theorem timerInv_mount : TimerInv LoaderInstance.mount := by
  intro t ht
  cases ht

theorem unmount_cleanup (w : LoaderInstance) : (unmount w).cleanup = none := by
  unfold unmount runCleanup
  cases hc : w.cleanup with
  | none => exact hc
  | some timer => rfl

theorem apply_torn_down (e : LoaderEvent) (u : LoaderInstance) (hm : u.mounted = false)
    (hp : u.pending = []) (hc : u.cleanup = none) : e.apply u = u := by
  cases e with
  | signal sig => simp [LoaderEvent.apply, hm]
  | timer id => simp [LoaderEvent.apply, timerFires, hp]
  | unmount =>
    rcases u with ⟨st, mt, pd, cl, nt⟩
    simp only at hm hp hc
    subst hm hp hc
    rfl

theorem runEvents_torn_down (events : List LoaderEvent) (u : LoaderInstance)
    (hm : u.mounted = false) (hp : u.pending = []) (hc : u.cleanup = none) :
    runEvents events u = u := by
  induction events with
  | nil => rfl
  | cons e rest ih =>
    show runEvents rest (e.apply u) = u
    rw [apply_torn_down e u hm hp hc]
    exact ih

/-- The three ways `checkRemoteFlag` can end, each as a function of the prior
state: which one is taken, and with which locator or message, depends on the two
reads only. -/
theorem checkRemoteFlag_shape (rt : Runtime) (flagFetch urlFetch : Fetch) :
    (∃ u, startsWith u "http" = true ∧
      (∃ status, flagFetch = .response true status (.json (.bool true))) ∧
      ∀ s, checkRemoteFlag rt flagFetch urlFetch s =
        ⟨{ s with loading := false, appReady := true, webViewUrl := u,
                  shouldLoadWebView := true, webViewFailed := false }, none⟩) ∨
    (∀ s, checkRemoteFlag rt flagFetch urlFetch s =
        ⟨{ s with loading := false, appReady := true, shouldLoadWebView := false,
                  webViewFailed := false }, none⟩) ∨
    (∃ m, ∀ s, checkRemoteFlag rt flagFetch urlFetch s =
        ⟨{ s with loading := false, appReady := true, shouldLoadWebView := false,
                  webViewFailed := false,
                  error := some ("Failed to check updates: " ++ m) }, none⟩) := by
  rcases flagFetch with m | ⟨ok, status, body⟩
  · exact Or.inr (Or.inr ⟨m, fun s => rfl⟩)
  · cases ok
    · exact Or.inr (Or.inr ⟨httpErrorMessage status, fun s => rfl⟩)
    · cases body with
      | readError m => exact Or.inr (Or.inr ⟨m, fun s => rfl⟩)
      | invalidJson => exact Or.inr (Or.inr ⟨"Invalid JSON in flag response", fun s => rfl⟩)
      | json flagData =>
        by_cases hflag : flagData = .bool true
        · subst hflag
          rcases urlFetch with m | ⟨ok2, status2, body2⟩
          · exact Or.inr (Or.inr ⟨m, fun s => rfl⟩)
          · cases ok2
            · exact Or.inr (Or.inr ⟨httpErrorMessage status2, fun s => rfl⟩)
            · cases body2 with
              | readError m => exact Or.inr (Or.inr ⟨m, fun s => rfl⟩)
              | invalidJson =>
                exact Or.inr (Or.inr ⟨"Invalid JSON in URL response", fun s => rfl⟩)
              | json urlData =>
                cases hf : extractFinalUrl urlData with
                | none =>
                  refine Or.inr (Or.inr ⟨"No valid URL found in configuration", fun s => ?_⟩)
                  rw [checkRemoteFlag_of_try_some rt _ _ s _ _
                    ((checkRemoteFlag_locator_json rt status status2 urlData s).trans
                      (by rw [hf, acceptFinalUrl_none]))]
                  rfl
                | some v =>
                  rcases acceptFinalUrl_dichotomy rt (some v) AppState.initial with
                    ⟨u, hu, hpre, _⟩ | ⟨m0, _, hnot⟩
                  · cases hu
                    refine Or.inl ⟨u, hpre, ⟨status, rfl⟩, fun s => ?_⟩
                    rw [checkRemoteFlag_of_try_none rt _ _ s _
                      ((checkRemoteFlag_locator_json rt status status2 urlData s).trans
                        (by rw [hf, acceptFinalUrl_str, if_pos hpre]))]
                    rfl
                  · cases v with
                    | str u =>
                      have hp : ¬ startsWith u "http" = true := by
                        rw [hnot u rfl]
                        simp
                      refine Or.inr (Or.inr
                        ⟨"No valid URL found in configuration", fun s => ?_⟩)
                      rw [checkRemoteFlag_of_try_some rt _ _ s _ _
                        ((checkRemoteFlag_locator_json rt status status2 urlData s).trans
                          (by rw [hf, acceptFinalUrl_str, if_neg hp]))]
                      rfl
                    | null =>
                      refine Or.inr (Or.inr
                        ⟨"No valid URL found in configuration", fun s => ?_⟩)
                      rw [checkRemoteFlag_of_try_some rt _ _ s _ _
                        ((checkRemoteFlag_locator_json rt status status2 urlData s).trans
                          (by rw [hf]; rfl))]
                      rfl
                    | bool b =>
                      cases b
                      · refine Or.inr (Or.inr
                          ⟨"No valid URL found in configuration", fun s => ?_⟩)
                        rw [checkRemoteFlag_of_try_some rt _ _ s _ _
                          ((checkRemoteFlag_locator_json rt status status2 urlData s).trans
                            (by rw [hf]; rfl))]
                        rfl
                      · refine Or.inr (Or.inr ⟨rt.notAFunction (.bool true), fun s => ?_⟩)
                        rw [checkRemoteFlag_of_try_some rt _ _ s _ _
                          ((checkRemoteFlag_locator_json rt status status2 urlData s).trans
                            (by rw [hf]; rfl))]
                        rfl
                    | num q =>
                      by_cases hq : q = 0
                      · refine Or.inr (Or.inr
                          ⟨"No valid URL found in configuration", fun s => ?_⟩)
                        have hacc : acceptFinalUrl rt (some (.num q)) { s with loading := true } =
                            ⟨{ s with loading := true },
                              some "No valid URL found in configuration"⟩ := by
                          simp [acceptFinalUrl, Json.truthy, hq]
                        rw [checkRemoteFlag_of_try_some rt _ _ s _ _
                          ((checkRemoteFlag_locator_json rt status status2 urlData s).trans
                            (by rw [hf]; exact hacc))]
                        rfl
                      · refine Or.inr (Or.inr ⟨rt.notAFunction (.num q), fun s => ?_⟩)
                        have hacc : acceptFinalUrl rt (some (.num q)) { s with loading := true } =
                            ⟨{ s with loading := true }, some (rt.notAFunction (.num q))⟩ := by
                          simp [acceptFinalUrl, Json.truthy, hq]
                        rw [checkRemoteFlag_of_try_some rt _ _ s _ _
                          ((checkRemoteFlag_locator_json rt status status2 urlData s).trans
                            (by rw [hf]; exact hacc))]
                        rfl
                    | arr items =>
                      refine Or.inr (Or.inr ⟨rt.notAFunction (.arr items), fun s => ?_⟩)
                      rw [checkRemoteFlag_of_try_some rt _ _ s _ _
                        ((checkRemoteFlag_locator_json rt status status2 urlData s).trans
                          (by rw [hf]; rfl))]
                      rfl
                    | obj props =>
                      refine Or.inr (Or.inr ⟨rt.notAFunction (.obj props), fun s => ?_⟩)
                      rw [checkRemoteFlag_of_try_some rt _ _ s _ _
                        ((checkRemoteFlag_locator_json rt status status2 urlData s).trans
                          (by rw [hf]; rfl))]
                      rfl
        · exact Or.inr (Or.inl
            (fun s => checkRemoteFlag_flag_other rt status flagData urlFetch s hflag))

theorem autoRetryEffect_none_of_inv (s : LoaderState) (h : LoaderInv s) :
    autoRetryEffect s = none := by
  unfold autoRetryEffect
  cases herr : s.hasError with
  | false => simp
  | true =>
    have hge := h.2 herr
    have hnlt : ¬ s.loadAttempts < MAX_RETRY_ATTEMPTS := Nat.not_lt.mpr hge
    simp [hnlt]

theorem runCleanup_state (w : LoaderInstance) : (runCleanup w).state = w.state := by
  unfold runCleanup
  cases w.cleanup <;> rfl

theorem runCleanup_pending_nil (w : LoaderInstance) (h : w.pending = []) :
    (runCleanup w).pending = [] := by
  unfold runCleanup
  cases w.cleanup with
  | none => exact h
  | some timer =>
    show w.pending.filter (fun t => t != timer) = []
    rw [h]
    rfl

theorem commit_quiet (w : LoaderInstance) (s : LoaderState) (hs : LoaderInv s)
    (h1 : LoaderInv w.state) (h2 : w.pending = []) :
    LoaderInv (commit w s).state ∧ (commit w s).pending = [] := by
  unfold commit
  split
  · exact ⟨h1, h2⟩
  · split
    · exact ⟨hs, h2⟩
    · have hst : (runCleanup { w with state := s }).state = s := runCleanup_state _
      have hpd : (runCleanup { w with state := s }).pending = [] :=
        runCleanup_pending_nil _ h2
      have hnone : autoRetryEffect (runCleanup { w with state := s }).state = none := by
        rw [hst]
        exact autoRetryEffect_none_of_inv s hs
      unfold runEffect
      rw [hnone]
      exact ⟨by rw [← hst] at hs; exact hs, hpd⟩

theorem apply_quiet (e : LoaderEvent) (w : LoaderInstance) (h1 : LoaderInv w.state)
    (h2 : w.pending = []) : LoaderInv (e.apply w).state ∧ (e.apply w).pending = [] := by
  cases e with
  | signal sig =>
    show LoaderInv (if w.mounted then commit w (sig.handle w.state) else w).state ∧
      (if w.mounted then commit w (sig.handle w.state) else w).pending = []
    split
    · exact commit_quiet w _ (loaderInv_handle sig w.state h1) h1 h2
    · exact ⟨h1, h2⟩
  | timer id =>
    show LoaderInv (timerFires id w).state ∧ (timerFires id w).pending = []
    unfold timerFires
    rw [h2]
    exact ⟨h1, h2⟩
  | unmount =>
    show LoaderInv (unmount w).state ∧ (unmount w).pending = []
    exact ⟨by
      show LoaderInv (runCleanup w).state
      rw [runCleanup_state]
      exact h1, runCleanup_pending_nil w h2⟩

theorem runEvents_quiet (events : List LoaderEvent) (w : LoaderInstance)
    (h1 : LoaderInv w.state) (h2 : w.pending = []) :
    LoaderInv (runEvents events w).state ∧ (runEvents events w).pending = [] := by
  induction events generalizing w with
  | nil => exact ⟨h1, h2⟩
  | cons e rest ih =>
    have h := apply_quiet e w h1 h2
    exact ih (e.apply w) h.1 h.2

theorem mount_quiet : LoaderInv LoaderInstance.mount.state ∧ LoaderInstance.mount.pending = [] :=
  ⟨loaderInv_mount, rfl⟩

theorem checkRemoteFlag_url_or_error (rt : Runtime) (flagFetch urlFetch : Fetch)
    (s : AppState) :
    (checkRemoteFlag rt flagFetch urlFetch s).thrown = none ∧
    ((checkRemoteFlag rt flagFetch urlFetch s).state.webViewUrl = s.webViewUrl ∨
      (checkRemoteFlag rt flagFetch urlFetch s).state.error = s.error) := by
  rcases checkRemoteFlag_shape rt flagFetch urlFetch with ⟨u, _, _, h⟩ | h | ⟨m, h⟩
  · rw [h s]
    exact ⟨rfl, Or.inr rfl⟩
  · rw [h s]
    exact ⟨rfl, Or.inl rfl⟩
  · rw [h s]
    exact ⟨rfl, Or.inl rfl⟩

theorem initializeApp_loaded (rt : Runtime) (flagFetch urlFetch : Fetch) (s : AppState) :
    initializeApp rt .loaded flagFetch urlFetch s =
      checkRemoteFlag rt flagFetch urlFetch { s with fontsLoaded := true } := by
  have h := (checkRemoteFlag_url_or_error rt flagFetch urlFetch { s with fontsLoaded := true }).1
  unfold initializeApp
  simp only [loadFonts]
  generalize checkRemoteFlag rt flagFetch urlFetch { s with fontsLoaded := true } = c at h ⊢
  rcases c with ⟨st, th⟩
  simp only at h
  subst h
  rfl

theorem initializeApp_url_or_error (rt : Runtime) (fonts : FontLoad) (flagFetch urlFetch : Fetch)
    (s : AppState) (hurl : s.webViewUrl = "") (herr : s.error = none) :
    (initializeApp rt fonts flagFetch urlFetch s).state.webViewUrl = "" ∨
    (initializeApp rt fonts flagFetch urlFetch s).state.error = none := by
  cases fonts with
  | failed message => exact Or.inl hurl
  | loaded =>
    rw [initializeApp_loaded]
    rcases (checkRemoteFlag_url_or_error rt flagFetch urlFetch
      { s with fontsLoaded := true }).2 with h | h
    · exact Or.inl (h.trans hurl)
    · exact Or.inr (h.trans herr)

theorem errorPanel_facts (s : AppState) (m : String) (h : renderApp s = .errorPanel m) :
    s.appReady = true ∧ s.fontsLoaded = true ∧ s.loading = false ∧
    s.shouldLoadWebView = false ∧ s.webViewFailed = false ∧ s.error ≠ none := by
  rcases s with ⟨fl, ar, sw, u, ld, er, wf⟩
  cases er with
  | none =>
    cases fl <;> cases ar <;> cases ld <;> cases sw <;> cases wf <;>
      simp [renderApp, errorTruthy] at h
  | some e =>
    cases fl <;> cases ar <;> cases ld <;> cases sw <;> cases wf <;>
      simp [renderApp, errorTruthy] at h ⊢

theorem hostStep_url_or_error (rt : Runtime) (s : AppState) (a : HostAction)
    (h : s.webViewUrl = "" ∨ s.error = none) :
    (hostStep rt s a).webViewUrl = "" ∨ (hostStep rt s a).error = none := by
  unfold hostStep
  split
  · next hen =>
    cases a with
    | webViewFallback => exact h
    | retryInitialCheck fonts flagFetch urlFetch =>
      cases hview : renderApp s with
      | errorPanel m =>
        have hfacts := errorPanel_facts s m hview
        have hurl : s.webViewUrl = "" := by
          rcases h with h | h
          · exact h
          · exact absurd h hfacts.2.2.2.2.2
        exact initializeApp_url_or_error rt fonts flagFetch urlFetch _ hurl rfl
      | loadingScreen => simp [HostAction.enabled, hview] at hen
      | webViewScreen url => simp [HostAction.enabled, hview] at hen
      | nativeNavigator => simp [HostAction.enabled, hview] at hen
  · exact h

theorem hostRun_url_or_error (rt : Runtime) (actions : List HostAction) (s : AppState)
    (h : s.webViewUrl = "" ∨ s.error = none) :
    (hostRun rt actions s).webViewUrl = "" ∨ (hostRun rt actions s).error = none := by
  induction actions generalizing s with
  | nil => exact h
  | cons a rest ih => exact ih (hostStep rt s a) (hostStep_url_or_error rt s a h)

theorem retry_from_panel (rt : Runtime) (flagFetch urlFetch : Fetch) (s : AppState) (m : String)
    (hpanel : renderApp s = .errorPanel m) (hurl : s.webViewUrl = "") :
    handleRetryInitialCheck rt .loaded flagFetch urlFetch s =
      initializeApp rt .loaded flagFetch urlFetch AppState.initial := by
  obtain ⟨har, hfl, _, hsw, _, _⟩ := errorPanel_facts s m hpanel
  rcases s with ⟨fl, ar, sw, u, ld, er, wf⟩
  simp only at har hfl hsw hurl
  subst har hfl hsw hurl
  unfold handleRetryInitialCheck
  rw [initializeApp_loaded, initializeApp_loaded]
  rcases checkRemoteFlag_shape rt flagFetch urlFetch with ⟨u, _, _, h⟩ | h | ⟨m2, h⟩ <;>
    rw [h, h] <;> rfl

theorem length_filter_split {α : Type} (p : α → Bool) (l : List α) :
    l.length = (l.filter (fun a => !p a)).length + (l.filter p).length := by
  induction l with
  | nil => rfl
  | cons a rest ih =>
    cases hp : p a
    · simp only [List.filter_cons, hp, Bool.not_false, if_true, Bool.false_eq_true, if_false,
        List.length_cons]
      omega
    · simp only [List.filter_cons, hp, Bool.not_true, if_true, Bool.false_eq_true, if_false,
        List.length_cons]
      omega

theorem nonneg_of_not_lt (v : JsNumber) (hn : v.isNaN = false)
    (h : v.lt (.finite 0) = false) : (JsNumber.finite 0).le v = true := by
  cases v with
  | nan => cases hn
  | negInf => cases h
  | posInf => rfl
  | finite q =>
    simp only [JsNumber.lt, decide_eq_false_iff_not, not_lt] at h
    simpa [JsNumber.le] using h

theorem stockOrZero_add_isNaN (c : Option JsNumber) (r : ℚ) :
    ((stockOrZero c).add (.finite r)).isNaN = false := by
  cases c with
  | none => rfl
  | some v =>
    cases v with
    | nan => rfl
    | negInf => rfl
    | posInf => rfl
    | finite q =>
      show ((if (JsNumber.finite q).truthy then JsNumber.finite q
        else JsNumber.finite 0).add (.finite r)).isNaN = false
      split <;> rfl

theorem stockButtons_finite (a : JsNumber) (h : a ∈ stockButtons) : ∃ r, a = .finite r := by
  simp only [stockButtons, List.mem_cons, List.mem_singleton, List.not_mem_nil, or_false] at h
  rcases h with rfl | rfl | rfl | rfl <;> exact ⟨_, rfl⟩

theorem enumerationOrder_of_no_index (inserted : List (String × Json))
    (h : ∀ p ∈ inserted, arrayIndex p.1 = none) : enumerationOrder inserted = inserted := by
  have hmap : inserted.filterMap (fun p => (arrayIndex p.1).map (fun i => (i, p))) = [] := by
    induction inserted with
    | nil => rfl
    | cons p rest ih =>
      have hp := h p (List.mem_cons_self p rest)
      have hrest := ih (fun q hq => h q (List.mem_cons_of_mem p hq))
      simp [List.filterMap_cons, hp, hrest]
  have hfilter : inserted.filter (fun p => (arrayIndex p.1).isNone) = inserted := by
    apply List.filter_eq_self.mpr
    intro p hp
    rw [h p hp]
    rfl
  unfold enumerationOrder
  rw [hmap, hfilter]
  rfl

/-! ## Theorems -/

/-- C1: when the flag response is successful and its body parses to any JSON value
other than the boolean `true`, `checkRemoteFlag` returns normally with
`shouldLoadWebView` false and the `error` field untouched, whatever the locator
endpoint would answer. -/
theorem checkRemoteFlag_native_of_flag_ne_true (rt : Runtime) (status : Nat)
    (flagData : Json) (urlFetch : Fetch) (s : AppState)
    (hflag : flagData ≠ .bool true) :
    (checkRemoteFlag rt (.response true status (.json flagData)) urlFetch s).thrown = none ∧
    (checkRemoteFlag rt (.response true status (.json flagData)) urlFetch s).state =
      { s with loading := false, appReady := true, shouldLoadWebView := false,
               webViewFailed := false } := by
  rw [checkRemoteFlag_flag_other rt status flagData urlFetch s hflag]
  exact ⟨rfl, rfl⟩


/-- C1, instance: the flag body `"true"` (a string) leaves the host in native mode. -/
theorem checkRemoteFlag_native_of_flag_ne_true_witness :
    Json.str "true" ≠ Json.bool true ∧
    (checkRemoteFlag Runtime.v8 (.response true 200 (.json (.str "true")))
        (.response true 200 (.json (.str "https://x.test/b"))) AppState.initial).thrown = none ∧
    (checkRemoteFlag Runtime.v8 (.response true 200 (.json (.str "true")))
        (.response true 200 (.json (.str "https://x.test/b"))) AppState.initial).state =
      { AppState.initial with loading := false, appReady := true, shouldLoadWebView := false,
                              webViewFailed := false } :=
  ⟨by simp, checkRemoteFlag_native_of_flag_ne_true _ _ _ _ _ (by simp)⟩


/-- C2: for every pair of flag and locator reads and every prior state, either
`checkRemoteFlag` leaves `shouldLoadWebView` true, and then the flag response was
successful with body `true` and the stored `webViewUrl` starts with `http`, or it
leaves `shouldLoadWebView` false. -/
theorem checkRemoteFlag_remote_only_validated (rt : Runtime) (flagFetch urlFetch : Fetch)
    (s : AppState) :
    ((checkRemoteFlag rt flagFetch urlFetch s).state.shouldLoadWebView = true ∧
      (∃ status, flagFetch = .response true status (.json (.bool true))) ∧
      startsWith (checkRemoteFlag rt flagFetch urlFetch s).state.webViewUrl "http" = true) ∨
    (checkRemoteFlag rt flagFetch urlFetch s).state.shouldLoadWebView = false := by
  rcases flagFetch with m | ⟨ok, status, body⟩
  · right
    simp [checkRemoteFlag, checkRemoteFlagTry, checkRemoteFlagCatch, checkRemoteFlagFinally]
  · cases ok
    · right
      simp [checkRemoteFlag, checkRemoteFlagTry, checkRemoteFlagCatch, checkRemoteFlagFinally]
    · cases body with
      | readError m =>
        right
        simp [checkRemoteFlag, checkRemoteFlagTry, checkRemoteFlagCatch, checkRemoteFlagFinally]
      | invalidJson =>
        right
        simp [checkRemoteFlag, checkRemoteFlagTry, checkRemoteFlagCatch, checkRemoteFlagFinally]
      | json flagData =>
        by_cases hflag : flagData = .bool true
        · subst hflag
          rcases urlFetch with m | ⟨ok2, status2, body2⟩
          · right
            simp [checkRemoteFlag, checkRemoteFlagTry, fetchLocator, checkRemoteFlagCatch,
              checkRemoteFlagFinally]
          · cases ok2
            · right
              simp [checkRemoteFlag, checkRemoteFlagTry, fetchLocator, checkRemoteFlagCatch,
                checkRemoteFlagFinally]
            · cases body2 with
              | readError m =>
                right
                simp [checkRemoteFlag, checkRemoteFlagTry, fetchLocator, checkRemoteFlagCatch,
                  checkRemoteFlagFinally]
              | invalidJson =>
                right
                simp [checkRemoteFlag, checkRemoteFlagTry, fetchLocator, checkRemoteFlagCatch,
                  checkRemoteFlagFinally]
              | json urlData =>
                rcases acceptFinalUrl_dichotomy rt (extractFinalUrl urlData)
                  { s with loading := true } with ⟨u, _, hpre, heq⟩ | ⟨m, heq, _⟩
                · left
                  have htry := checkRemoteFlag_of_try_none rt
                    (.response true status (.json (.bool true)))
                    (.response true status2 (.json urlData)) s _
                    ((checkRemoteFlagTry_flag_true rt status _ s).trans
                      ((fetchLocator_json rt status2 urlData _).trans heq))
                  rw [htry]
                  exact ⟨rfl, ⟨status, rfl⟩, hpre⟩
                · right
                  have htry := checkRemoteFlag_of_try_some rt
                    (.response true status (.json (.bool true)))
                    (.response true status2 (.json urlData)) s _ m
                    ((checkRemoteFlagTry_flag_true rt status _ s).trans
                      ((fetchLocator_json rt status2 urlData _).trans heq))
                  rw [htry]
                  rfl
        · right
          rw [checkRemoteFlag_flag_other rt status flagData urlFetch s hflag]


/-- C3: with the flag `true`, a locator response whose body is an object none of
whose values is a string starting with `http` makes `checkRemoteFlag` return
normally in the error state: an error message is set and `shouldLoadWebView` is
false (for a successful and for an unsuccessful response status alike). -/
theorem checkRemoteFlag_error_of_no_http_value (rt : Runtime) (status status2 : Nat)
    (ok : Bool) (props : List (String × Json)) (s : AppState)
    (hno : ∀ v ∈ (Json.obj props).values, ∀ u, v = .str u → startsWith u "http" = false) :
    ∃ message,
      checkRemoteFlag rt (.response true status (.json (.bool true)))
          (.response ok status2 (.json (.obj props))) s =
        ⟨{ s with loading := false, appReady := true, shouldLoadWebView := false,
                  webViewFailed := false,
                  error := some ("Failed to check updates: " ++ message) }, none⟩ := by
  cases ok
  · exact ⟨httpErrorMessage status2, by
      simp [checkRemoteFlag, checkRemoteFlagTry, fetchLocator, checkRemoteFlagCatch,
        checkRemoteFlagFinally]⟩
  · rcases acceptFinalUrl_dichotomy rt (extractFinalUrl (.obj props))
      { s with loading := true } with ⟨u, hu, hpre, _⟩ | ⟨m, heq, _⟩
    · have hmem := extractFinalUrl_obj_mem props _ hu
      have := hno _ hmem u rfl
      rw [hpre] at this
      cases this
    · refine ⟨m, ?_⟩
      rw [checkRemoteFlag_of_try_some rt _ _ s _ m
        ((checkRemoteFlag_locator_json rt status status2 (.obj props) s).trans heq)]
      rfl

/-- C3, instance: the object `{"a": "ftp://x.test", "b": 7}` ends in the error state. -/
theorem checkRemoteFlag_error_of_no_http_value_witness :
    (∀ v ∈ (Json.obj [("a", .str "ftp://x.test"), ("b", .num 7)]).values,
        ∀ u, v = .str u → startsWith u "http" = false) ∧
    ∃ message,
      checkRemoteFlag Runtime.v8 (.response true 200 (.json (.bool true)))
          (.response true 200 (.json (.obj [("a", .str "ftp://x.test"), ("b", .num 7)])))
          AppState.initial =
        ⟨{ AppState.initial with loading := false, appReady := true,
                                 shouldLoadWebView := false, webViewFailed := false,
                                 error := some ("Failed to check updates: " ++ message) },
          none⟩ :=
  have h : ∀ v ∈ (Json.obj [("a", .str "ftp://x.test"), ("b", .num 7)]).values,
      ∀ u, v = .str u → startsWith u "http" = false := by
    intro v hv u hu
    simp only [Json.values, List.map_cons, List.map_nil, List.mem_cons, List.mem_singleton,
      List.not_mem_nil, or_false] at hv
    rcases hv with rfl | rfl
    · cases hu
      decide
    · cases hu
  ⟨h, checkRemoteFlag_error_of_no_http_value _ _ _ _ _ _ h⟩

/-- C4, as stated, fails: for the locator object `{"a": "foo", "b": "https://x.test"}`,
which has no `url` property and whose first value that is a string starting with
`http` is `"https://x.test"`, `checkRemoteFlag` ends in the error state, not in
remote mode. -/
theorem checkRemoteFlag_scan_stops_at_first_string :
    (Json.obj [("a", .str "foo"), ("b", .str "https://x.test")]).getProp "url" = none ∧
    specScan (Json.obj [("a", .str "foo"), ("b", .str "https://x.test")]).values =
      some "https://x.test" ∧
    (checkRemoteFlag Runtime.v8 (.response true 200 (.json (.bool true)))
        (.response true 200 (.json (.obj [("a", .str "foo"), ("b", .str "https://x.test")])))
        AppState.initial).state.shouldLoadWebView = false ∧
    (checkRemoteFlag Runtime.v8 (.response true 200 (.json (.bool true)))
        (.response true 200 (.json (.obj [("a", .str "foo"), ("b", .str "https://x.test")])))
        AppState.initial).state.error =
      some "Failed to check updates: No valid URL found in configuration" :=
  ⟨rfl, by decide, by decide, by decide⟩

/-- C4, amended: with the flag `true`, for a locator object whose `url` property
is absent or falsy and whose first string-typed value in insertion order is `v`,
`checkRemoteFlag` ends in remote mode with `webViewUrl = v` when `v` starts with
`http`, and in the error state when it does not (whatever values follow `v`). -/
theorem checkRemoteFlag_scan_first_string (rt : Runtime) (status status2 : Nat)
    (props : List (String × Json)) (v : String) (s : AppState)
    (hurl : truthyOpt ((Json.obj props).getProp "url") = false)
    (hfirst : (Json.obj props).values.find? Json.isString = some (.str v)) :
    checkRemoteFlag rt (.response true status (.json (.bool true)))
        (.response true status2 (.json (.obj props))) s =
      if startsWith v "http" then
        ⟨{ s with loading := false, appReady := true, webViewUrl := v,
                  shouldLoadWebView := true, webViewFailed := false }, none⟩
      else
        ⟨{ s with loading := false, appReady := true, shouldLoadWebView := false,
                  webViewFailed := false,
                  error := some ("Failed to check updates: " ++
                  "No valid URL found in configuration") }, none⟩ :=
  checkRemoteFlag_scan rt status status2 props v s hurl hfirst

/-- C4, amended, instance: `{"url": null, "n": 1, "site": "https://x.test", "z": "foo"}`
ends in remote mode with `webViewUrl = "https://x.test"`. -/
theorem checkRemoteFlag_scan_first_string_witness :
    truthyOpt ((Json.obj [("url", .null), ("n", .num 1), ("site", .str "https://x.test"),
      ("z", .str "foo")]).getProp "url") = false ∧
    (Json.obj [("url", .null), ("n", .num 1), ("site", .str "https://x.test"),
      ("z", .str "foo")]).values.find? Json.isString = some (.str "https://x.test") ∧
    checkRemoteFlag Runtime.v8 (.response true 200 (.json (.bool true)))
        (.response true 200 (.json (.obj [("url", .null), ("n", .num 1),
          ("site", .str "https://x.test"), ("z", .str "foo")]))) AppState.initial =
      if startsWith "https://x.test" "http" then
        ⟨{ AppState.initial with loading := false, appReady := true,
                                 webViewUrl := "https://x.test",
                                 shouldLoadWebView := true, webViewFailed := false }, none⟩
      else
        ⟨{ AppState.initial with loading := false, appReady := true,
                                 shouldLoadWebView := false, webViewFailed := false,
                                 error := some ("Failed to check updates: " ++
                                 "No valid URL found in configuration") }, none⟩ :=
  ⟨rfl, rfl, checkRemoteFlag_scan_first_string _ _ _ _ _ _ rfl rfl⟩


/-- C5: with the flag `true` and a locator body that is the bare string `u`,
`checkRemoteFlag` ends in remote mode with `webViewUrl = u` exactly when `u` starts
with the lowercase characters `http`, and in the error state otherwise. -/
theorem checkRemoteFlag_bare_string (rt : Runtime) (status status2 : Nat) (u : String)
    (s : AppState) :
    checkRemoteFlag rt (.response true status (.json (.bool true)))
        (.response true status2 (.json (.str u))) s =
      if startsWith u "http" then
        ⟨{ s with loading := false, appReady := true, webViewUrl := u,
                  shouldLoadWebView := true, webViewFailed := false }, none⟩
      else
        ⟨{ s with loading := false, appReady := true, shouldLoadWebView := false,
                  webViewFailed := false,
                  error := some ("Failed to check updates: " ++
                  "No valid URL found in configuration") }, none⟩ := by
  have hex : extractFinalUrl (.str u) = some (.str u) := rfl
  by_cases hp : startsWith u "http" = true
  · rw [if_pos hp, checkRemoteFlag_of_try_none rt _ _ s _
      ((checkRemoteFlag_locator_json rt status status2 (.str u) s).trans
        (by rw [hex, acceptFinalUrl_str, if_pos hp]))]
    rfl
  · rw [if_neg hp, checkRemoteFlag_of_try_some rt _ _ s _ _
      ((checkRemoteFlag_locator_json rt status status2 (.str u) s).trans
        (by rw [hex, acceptFinalUrl_str, if_neg hp]))]
    rfl

/-- C5, instances: the bare strings `"HTTP://x"`, `"ftp://x"` and `""` end in the
error state, and `"https://x.test/b"` ends in remote mode. -/
theorem checkRemoteFlag_bare_string_witness :
    (checkRemoteFlag Runtime.v8 (.response true 200 (.json (.bool true)))
        (.response true 200 (.json (.str "HTTP://x"))) AppState.initial =
      ⟨{ AppState.initial with loading := false, appReady := true, shouldLoadWebView := false,
                               webViewFailed := false,
                               error := some ("Failed to check updates: " ++
                                 "No valid URL found in configuration") },
        none⟩) ∧
    (checkRemoteFlag Runtime.v8 (.response true 200 (.json (.bool true)))
        (.response true 200 (.json (.str "ftp://x"))) AppState.initial =
      ⟨{ AppState.initial with loading := false, appReady := true, shouldLoadWebView := false,
                               webViewFailed := false,
                               error := some ("Failed to check updates: " ++
                                 "No valid URL found in configuration") },
        none⟩) ∧
    (checkRemoteFlag Runtime.v8 (.response true 200 (.json (.bool true)))
        (.response true 200 (.json (.str ""))) AppState.initial =
      ⟨{ AppState.initial with loading := false, appReady := true, shouldLoadWebView := false,
                               webViewFailed := false,
                               error := some ("Failed to check updates: " ++
                                 "No valid URL found in configuration") },
        none⟩) ∧
    (checkRemoteFlag Runtime.v8 (.response true 200 (.json (.bool true)))
        (.response true 200 (.json (.str "https://x.test/b"))) AppState.initial =
      ⟨{ AppState.initial with loading := false, appReady := true,
                               webViewUrl := "https://x.test/b", shouldLoadWebView := true,
                               webViewFailed := false }, none⟩) :=
  ⟨(checkRemoteFlag_bare_string _ _ _ "HTTP://x" _).trans (by decide),
   (checkRemoteFlag_bare_string _ _ _ "ftp://x" _).trans (by decide),
   (checkRemoteFlag_bare_string _ _ _ "" _).trans (by decide),
   (checkRemoteFlag_bare_string _ _ _ "https://x.test/b" _).trans (by decide)⟩

/-- C6: with the flag `true`, a locator object whose `url` property is a non-empty
string that does not start with `http` makes `checkRemoteFlag` end in the error
state, whatever the other values of the object are. -/
theorem checkRemoteFlag_url_prop_not_http (rt : Runtime) (status status2 : Nat)
    (props : List (String × Json)) (u : String) (s : AppState)
    (hurl : (Json.obj props).getProp "url" = some (.str u))
    (hne : u ≠ "")
    (hpre : startsWith u "http" = false) :
    checkRemoteFlag rt (.response true status (.json (.bool true)))
        (.response true status2 (.json (.obj props))) s =
      ⟨{ s with loading := false, appReady := true, shouldLoadWebView := false,
                webViewFailed := false,
                error := some ("Failed to check updates: " ++
                "No valid URL found in configuration") }, none⟩ := by
  have htruthy : truthyOpt ((Json.obj props).getProp "url") = true := by
    simp [hurl, truthyOpt, Json.truthy, hne]
  have hex := extractFinalUrl_obj_url props htruthy
  rw [hurl] at hex
  have hp : ¬ startsWith u "http" = true := by simp [hpre]
  rw [checkRemoteFlag_of_try_some rt _ _ s _ _
    ((checkRemoteFlag_locator_json rt status status2 (.obj props) s).trans
      (by rw [hex, acceptFinalUrl_str, if_neg hp]))]
  rfl

/-- C6, instance: `{"good": "https://ok.test", "url": "ftp://x.test/c"}` ends in the
error state although another value starts with `http`. -/
theorem checkRemoteFlag_url_prop_not_http_witness :
    (Json.obj [("good", .str "https://ok.test"), ("url", .str "ftp://x.test/c")]).getProp "url" =
      some (.str "ftp://x.test/c") ∧
    "ftp://x.test/c" ≠ "" ∧
    startsWith "ftp://x.test/c" "http" = false ∧
    checkRemoteFlag Runtime.v8 (.response true 200 (.json (.bool true)))
        (.response true 200 (.json (.obj [("good", .str "https://ok.test"),
          ("url", .str "ftp://x.test/c")]))) AppState.initial =
      ⟨{ AppState.initial with loading := false, appReady := true, shouldLoadWebView := false,
                               webViewFailed := false,
                               error := some ("Failed to check updates: " ++
                               "No valid URL found in configuration") }, none⟩ :=
  ⟨rfl, by decide, by decide,
    checkRemoteFlag_url_prop_not_http _ _ _ _ _ _ rfl (by decide) (by decide)⟩

/-- C7, as stated, fails: the object text `{"b": "https://x.test", "1": "foo"}` has no
`url` member and its first string-typed value in insertion order,
`"https://x.test"`, starts with `http`; the engine enumerates the array-index
key `"1"` first, so the code reads `"foo"` first and `checkRemoteFlag` ends in the
error state, not in remote mode. -/
theorem checkRemoteFlag_insertion_order_fails :
    (Json.obj [("b", .str "https://x.test"), ("1", .str "foo")]).getProp "url" = none ∧
    ([("b", Json.str "https://x.test"), ("1", Json.str "foo")].map
      (fun p => p.2)).find? Json.isString = some (.str "https://x.test") ∧
    startsWith "https://x.test" "http" = true ∧
    parseObject [("b", .str "https://x.test"), ("1", .str "foo")] =
      .obj [("1", .str "foo"), ("b", .str "https://x.test")] ∧
    (checkRemoteFlag Runtime.v8 (.response true 200 (.json (.bool true)))
        (.response true 200
          (.json (parseObject [("b", .str "https://x.test"), ("1", .str "foo")])))
        AppState.initial).state.shouldLoadWebView = false ∧
    (checkRemoteFlag Runtime.v8 (.response true 200 (.json (.bool true)))
        (.response true 200
          (.json (parseObject [("b", .str "https://x.test"), ("1", .str "foo")])))
        AppState.initial).state.error =
      some "Failed to check updates: No valid URL found in configuration" :=
  ⟨rfl, rfl, by decide, rfl, by decide, by decide⟩

/-- C7, amended: with the flag `true`, for a locator object, written with its members
in the order `inserted`, that has no `url` property and whose first string-typed
value in the order of enumeration (array-index keys by ascending index, then the
other keys in insertion order) is `v`, starting with `http`, `checkRemoteFlag` ends
in remote mode with `webViewUrl = v`; when no key is an array index the order of
enumeration is the insertion order. -/
theorem checkRemoteFlag_first_string_enumerated (rt : Runtime) (status status2 : Nat)
    (inserted : List (String × Json)) (v : String) (s : AppState)
    (hno : (parseObject inserted).getProp "url" = none)
    (hfirst : (parseObject inserted).values.find? Json.isString = some (.str v))
    (hpre : startsWith v "http" = true) :
    checkRemoteFlag rt (.response true status (.json (.bool true)))
        (.response true status2 (.json (parseObject inserted))) s =
      ⟨{ s with loading := false, appReady := true, webViewUrl := v,
                shouldLoadWebView := true, webViewFailed := false }, none⟩ ∧
    ((∀ p ∈ inserted, arrayIndex p.1 = none) → parseObject inserted = .obj inserted) := by
  have hurl : truthyOpt ((Json.obj (enumerationOrder inserted)).getProp "url") = false := by
    have h : (Json.obj (enumerationOrder inserted)).getProp "url" = none := hno
    rw [h]
    rfl
  refine ⟨?_, ?_⟩
  · show checkRemoteFlag rt (.response true status (.json (.bool true)))
        (.response true status2 (.json (.obj (enumerationOrder inserted)))) s = _
    rw [checkRemoteFlag_scan rt status status2 (enumerationOrder inserted) v s hurl hfirst,
      if_pos hpre]
  · intro hkeys
    show Json.obj (enumerationOrder inserted) = .obj inserted
    rw [enumerationOrder_of_no_index inserted hkeys]

/-- C7, amended, instance: `{"foo": 1, "bar": "https://x.test/a"}`, which has no
array-index key and is enumerated in insertion order, ends in remote mode with
`webViewUrl = "https://x.test/a"`. -/
theorem checkRemoteFlag_first_string_enumerated_witness :
    (parseObject [("foo", .num 1), ("bar", .str "https://x.test/a")]).getProp "url" = none ∧
    (parseObject [("foo", .num 1), ("bar", .str "https://x.test/a")]).values.find?
      Json.isString = some (.str "https://x.test/a") ∧
    startsWith "https://x.test/a" "http" = true ∧
    checkRemoteFlag Runtime.v8 (.response true 200 (.json (.bool true)))
        (.response true 200
          (.json (parseObject [("foo", .num 1), ("bar", .str "https://x.test/a")])))
        AppState.initial =
      ⟨{ AppState.initial with loading := false, appReady := true,
                               webViewUrl := "https://x.test/a", shouldLoadWebView := true,
                               webViewFailed := false }, none⟩ ∧
    parseObject [("foo", .num 1), ("bar", .str "https://x.test/a")] =
      .obj [("foo", .num 1), ("bar", .str "https://x.test/a")] :=
  have h := checkRemoteFlag_first_string_enumerated Runtime.v8 200 200
    [("foo", .num 1), ("bar", .str "https://x.test/a")] "https://x.test/a" AppState.initial
    rfl rfl (by decide)
  ⟨rfl, rfl, by decide, h.1, rfl⟩

/-- C8: when the flag read fails (the fetch rejects, the response status is not a
success, the body cannot be read, or the body is not valid JSON), `checkRemoteFlag`
returns normally (nothing is thrown to the caller) in the error state: the message
is `Failed to check updates: ` followed by the failure reason (the message of the
rejection, `HTTP error! status: ` with the status in decimal, the message of the
read error, or `Invalid JSON in flag response`), `shouldLoadWebView` and `loading`
are false and `appReady` is true, whatever the locator endpoint holds. -/
theorem checkRemoteFlag_flag_failure (rt : Runtime) (urlFetch : Fetch) (s : AppState) :
    (∀ reason, checkRemoteFlag rt (.transportError reason) urlFetch s =
      ⟨{ s with loading := false, appReady := true, shouldLoadWebView := false,
                webViewFailed := false,
                error := some ("Failed to check updates: " ++ reason) }, none⟩) ∧
    (∀ status body, checkRemoteFlag rt (.response false status body) urlFetch s =
      ⟨{ s with loading := false, appReady := true, shouldLoadWebView := false,
                webViewFailed := false,
                error := some ("Failed to check updates: " ++
                  ("HTTP error! status: " ++ toString status)) }, none⟩) ∧
    (∀ status reason, checkRemoteFlag rt (.response true status (.readError reason)) urlFetch s =
      ⟨{ s with loading := false, appReady := true, shouldLoadWebView := false,
                webViewFailed := false,
                error := some ("Failed to check updates: " ++ reason) }, none⟩) ∧
    (∀ status, checkRemoteFlag rt (.response true status .invalidJson) urlFetch s =
      ⟨{ s with loading := false, appReady := true, shouldLoadWebView := false,
                webViewFailed := false,
                error := some ("Failed to check updates: " ++
                  "Invalid JSON in flag response") }, none⟩) := by
  refine ⟨?_, ?_, ?_, ?_⟩
  · intro reason
    rfl
  · intro status body
    rfl
  · intro status reason
    rfl
  · intro status
    rfl

/-- C8, instances: the flag fetch rejected with `Network request failed`, answered
with status 404, and answered with a body that is not JSON: the messages the user
sees, in full. -/
theorem checkRemoteFlag_flag_failure_witness :
    (checkRemoteFlag Runtime.v8 (.transportError "Network request failed")
        (.response true 200 (.json (.str "https://x.test"))) AppState.initial =
      ⟨{ AppState.initial with loading := false, appReady := true,
                               shouldLoadWebView := false, webViewFailed := false,
                               error := some "Failed to check updates: Network request failed" },
        none⟩) ∧
    (checkRemoteFlag Runtime.v8 (.response false 404 (.json (.bool true)))
        (.response true 200 (.json (.str "https://x.test"))) AppState.initial =
      ⟨{ AppState.initial with loading := false, appReady := true,
                               shouldLoadWebView := false, webViewFailed := false,
                               error := some "Failed to check updates: HTTP error! status: 404" },
        none⟩) ∧
    (checkRemoteFlag Runtime.v8 (.response true 200 .invalidJson)
        (.response true 200 (.json (.str "https://x.test"))) AppState.initial =
      ⟨{ AppState.initial with loading := false, appReady := true,
                               shouldLoadWebView := false, webViewFailed := false,
                               error := some
                                 "Failed to check updates: Invalid JSON in flag response" },
        none⟩) :=
  have h := checkRemoteFlag_flag_failure Runtime.v8
    (.response true 200 (.json (.str "https://x.test"))) AppState.initial
  ⟨(h.1 "Network request failed").trans (by decide),
   (h.2.1 404 (.json (.bool true))).trans (by decide),
   (h.2.2.2 200).trans (by decide)⟩

/-- C9: with the flag `true`, when the locator read fails (the fetch rejects, the
response status is not a success whatever its body, the body cannot be read, or
the body is not valid JSON), `checkRemoteFlag` ends in the error state with
`shouldLoadWebView` false and the failure reason in the message. -/
theorem checkRemoteFlag_locator_failure (rt : Runtime) (flagStatus : Nat) (s : AppState) :
    (∀ reason, checkRemoteFlag rt (.response true flagStatus (.json (.bool true)))
        (.transportError reason) s =
      ⟨{ s with loading := false, appReady := true, shouldLoadWebView := false,
                webViewFailed := false,
                error := some ("Failed to check updates: " ++ reason) }, none⟩) ∧
    (∀ status body, checkRemoteFlag rt (.response true flagStatus (.json (.bool true)))
        (.response false status body) s =
      ⟨{ s with loading := false, appReady := true, shouldLoadWebView := false,
                webViewFailed := false,
                error := some ("Failed to check updates: " ++
                  ("HTTP error! status: " ++ toString status)) }, none⟩) ∧
    (∀ status reason, checkRemoteFlag rt (.response true flagStatus (.json (.bool true)))
        (.response true status (.readError reason)) s =
      ⟨{ s with loading := false, appReady := true, shouldLoadWebView := false,
                webViewFailed := false,
                error := some ("Failed to check updates: " ++ reason) }, none⟩) ∧
    (∀ status, checkRemoteFlag rt (.response true flagStatus (.json (.bool true)))
        (.response true status .invalidJson) s =
      ⟨{ s with loading := false, appReady := true, shouldLoadWebView := false,
                webViewFailed := false,
                error := some ("Failed to check updates: " ++
                  "Invalid JSON in URL response") }, none⟩) := by
  refine ⟨?_, ?_, ?_, ?_⟩
  · intro reason
    rfl
  · intro status body
    rfl
  · intro status reason
    rfl
  · intro status
    rfl

/-- C10: from a freshly mounted loader, three consecutive failure signals (of any
of the three kinds) leave `hasError` true with `loadAttempts` at the ceiling 2 and
the terminal error view rendered; after one or two failure signals `hasError` is
false and the WebView with its loading overlay is rendered. -/
theorem loader_abandoned_after_three_failures (a b c : FailureSignal) :
    c.handle (b.handle (a.handle LoaderState.mount)) =
      { hasError := true, isLoading := false, loadAttempts := MAX_RETRY_ATTEMPTS } ∧
    MAX_RETRY_ATTEMPTS = 2 ∧
    renderLoader (c.handle (b.handle (a.handle LoaderState.mount))) = .connectionFailed ∧
    a.handle LoaderState.mount = { hasError := false, isLoading := true, loadAttempts := 1 } ∧
    renderLoader (a.handle LoaderState.mount) = .webView true ∧
    b.handle (a.handle LoaderState.mount) =
      { hasError := false, isLoading := true, loadAttempts := 2 } ∧
    renderLoader (b.handle (a.handle LoaderState.mount)) = .webView true ∧
    renderLoader LoaderState.mount = .webView true := by
  cases a <;> cases b <;> cases c <;> decide


/-- C11: `handleError` invokes `onFallbackToNative` in no state, in particular not
on the failure signal that arrives at the ceiling and moves the loader to the
terminal error view: the count of invocations there is 0, not 1. -/
theorem handleError_never_calls_fallback :
    (∀ s, (handleErrorCalls s).count .onFallbackToNative = 0) ∧
    (handleError (handleError LoaderState.mount)).loadAttempts = MAX_RETRY_ATTEMPTS ∧
    renderLoader (handleError (handleError LoaderState.mount)) = .webView true ∧
    renderLoader (handleError (handleError (handleError LoaderState.mount))) =
      .connectionFailed ∧
    handleErrorCalls (handleError (handleError LoaderState.mount)) = [] := by
  refine ⟨?_, by decide, by decide, by decide, by decide⟩
  intro s
  unfold handleErrorCalls
  split <;> rfl

/-- C12: a failure signal handled below the ceiling increments `loadAttempts` by one
and returns to loading, but the auto-retry effect that follows schedules no
timeout (its condition needs `hasError`, which the handler has just cleared) and
the handler issues no reload. -/
theorem failure_below_ceiling_schedules_nothing (f : FailureSignal) (s : LoaderState)
    (h : s.loadAttempts < MAX_RETRY_ATTEMPTS) :
    f.handle s = { hasError := false, isLoading := true, loadAttempts := s.loadAttempts + 1 } ∧
    autoRetryEffect (f.handle s) = none ∧
    handleErrorCalls s = [] := by
  have hs : f.handle s = handleError s := by cases f <;> rfl
  have he : handleError s =
      { hasError := false, isLoading := true, loadAttempts := s.loadAttempts + 1 } := by
    simp [handleError, h]
  refine ⟨hs.trans he, ?_, ?_⟩
  · rw [hs, he]
    rfl
  · simp [handleErrorCalls]

/-- C12, instance: the first `onError` on a freshly mounted loader. -/
theorem failure_below_ceiling_schedules_nothing_witness :
    LoaderState.mount.loadAttempts < MAX_RETRY_ATTEMPTS ∧
    FailureSignal.onError.handle LoaderState.mount =
      { hasError := false, isLoading := true, loadAttempts := 0 + 1 } ∧
    autoRetryEffect (FailureSignal.onError.handle LoaderState.mount) = none ∧
    handleErrorCalls LoaderState.mount = [] :=
  ⟨by decide, failure_below_ceiling_schedules_nothing .onError LoaderState.mount (by decide)⟩

/-- C13: from every loader state (the abandoned one included, whatever the attempt
count), `handleRetry` gives `loadAttempts = 0`, `hasError = false`, `isLoading = true`,
and one failure signal after it gives `loadAttempts = 1` with the WebView and its
loading overlay rendered, not the terminal error view. -/
theorem handleRetry_resets_attempts (s : LoaderState) (f : FailureSignal) :
    handleRetry s = { hasError := false, isLoading := true, loadAttempts := 0 } ∧
    Signal.tryAgain.handle s = handleRetry s ∧
    f.handle (handleRetry s) = { hasError := false, isLoading := true, loadAttempts := 1 } ∧
    renderLoader (f.handle (handleRetry s)) = .webView true := by
  refine ⟨rfl, rfl, ?_, ?_⟩ <;> cases f <;> rfl

/-- C14: in every state reached from a fresh mount in which the terminal error view
is not rendered, `onLoadEnd` and `onLoadProgress` with progress 1 give
`isLoading = false` and `hasError = false` and keep `loadAttempts`, which is at
most 2. -/
theorem success_signal_loaded (signals : List Signal)
    (hview : renderLoader (runSignals signals LoaderState.mount) ≠ .connectionFailed) :
    onLoadEnd (runSignals signals LoaderState.mount) =
      { hasError := false, isLoading := false,
        loadAttempts := (runSignals signals LoaderState.mount).loadAttempts } ∧
    onLoadProgress 1 (runSignals signals LoaderState.mount) =
      { hasError := false, isLoading := false,
        loadAttempts := (runSignals signals LoaderState.mount).loadAttempts } ∧
    (runSignals signals LoaderState.mount).loadAttempts ≤ 2 := by
  have hinv := loaderInv_runSignals signals LoaderState.mount loaderInv_mount
  have herr := hasError_false_of_not_connectionFailed _ hinv hview
  refine ⟨?_, ?_, hinv.1⟩
  · simp [onLoadEnd, ← herr]
  · simp [onLoadProgress, ← herr]

/-- C14, instance: after two failure signals (attempt count 2, not abandoned), a
success signal gives the loaded state with `loadAttempts` still 2. -/
theorem success_signal_loaded_witness :
    renderLoader (runSignals [.failure .onError, .failure .onHttpError] LoaderState.mount) ≠
      .connectionFailed ∧
    onLoadEnd (runSignals [.failure .onError, .failure .onHttpError] LoaderState.mount) =
      { hasError := false, isLoading := false, loadAttempts := 2 } ∧
    onLoadProgress 1 (runSignals [.failure .onError, .failure .onHttpError] LoaderState.mount) =
      { hasError := false, isLoading := false, loadAttempts := 2 } :=
  have h := success_signal_loaded [.failure .onError, .failure .onHttpError] (by decide)
  ⟨by decide, h.1, h.2.1⟩

/-- C18: from every loader state the three failure callbacks give the same state,
the one `handleError` gives. -/
theorem failure_signals_agree (f g : FailureSignal) (s : LoaderState) :
    f.handle s = g.handle s ∧ f.handle s = handleError s := by
  cases f <;> cases g <;> exact ⟨rfl, rfl⟩

/-- C19: after any sequence of signals from a fresh mount, each handled against the
state left by the one before, `loadAttempts` is between 0 and 2. -/
theorem loadAttempts_bounded (signals : List Signal) :
    0 ≤ (runSignals signals LoaderState.mount).loadAttempts ∧
    (runSignals signals LoaderState.mount).loadAttempts ≤ 2 :=
  ⟨Nat.zero_le _, (loaderInv_runSignals signals LoaderState.mount loaderInv_mount).1⟩


/-- C15: if the host renders the WebView, then after `handleWebViewFallback` it renders
the native navigator, and after any further sequence of host actions, each run
only if the rendered view enables it, the state is unchanged and the native
navigator is still rendered. -/
theorem fallback_is_permanent (rt : Runtime) (s : AppState) (url : String)
    (actions : List HostAction) (h : renderApp s = .webViewScreen url) :
    (handleWebViewFallback s).webViewFailed = true ∧
    (handleWebViewFallback s).shouldLoadWebView = false ∧
    renderApp (handleWebViewFallback s) = .nativeNavigator ∧
    hostRun rt actions (handleWebViewFallback s) = handleWebViewFallback s ∧
    renderApp (hostRun rt actions (handleWebViewFallback s)) = .nativeNavigator := by
  have hnative := renderApp_fallback s url h
  have hrun := hostRun_native rt actions _ hnative
  exact ⟨rfl, rfl, hnative, hrun, by rw [hrun]; exact hnative⟩

/-- C15, instance: a host showing `https://a.test`, then the fallback, then a retry
of the initial check that would resolve to remote mode and a second fallback. -/
theorem fallback_is_permanent_witness :
    renderApp { fontsLoaded := true, appReady := true, shouldLoadWebView := true,
                webViewUrl := "https://a.test", loading := false, error := none,
                webViewFailed := false } = .webViewScreen "https://a.test" ∧
    renderApp (hostRun Runtime.v8
      [.retryInitialCheck .loaded (.response true 200 (.json (.bool true)))
          (.response true 200 (.json (.str "https://a.test"))), .webViewFallback]
      (handleWebViewFallback
        { fontsLoaded := true, appReady := true, shouldLoadWebView := true,
          webViewUrl := "https://a.test", loading := false, error := none,
          webViewFailed := false })) = .nativeNavigator :=
  ⟨by decide, (fallback_is_permanent Runtime.v8 _ "https://a.test" _ (by decide)).2.2.2.2⟩

/-- C16: whenever the `try` block of `checkRemoteFlag` throws (the Error outcome) in a
host whose fonts are loaded, the host renders the error panel with the message
`Failed to check updates: ...`, not the native navigator. -/
theorem error_outcome_renders_panel (rt : Runtime) (flagFetch urlFetch : Fetch)
    (s : AppState) (m : String) (hfonts : s.fontsLoaded = true)
    (hthrown : (checkRemoteFlagTry rt flagFetch urlFetch s).thrown = some m) :
    renderApp (checkRemoteFlag rt flagFetch urlFetch s).state =
      .errorPanel ("Failed to check updates: " ++ m) ∧
    renderApp (checkRemoteFlag rt flagFetch urlFetch s).state ≠ .nativeNavigator := by
  have hfl := checkRemoteFlagTry_fontsLoaded rt flagFetch urlFetch s
  rw [hfonts] at hfl
  have hne := failed_message_ne_empty m
  have hview : renderApp (checkRemoteFlag rt flagFetch urlFetch s).state =
      .errorPanel ("Failed to check updates: " ++ m) := by
    simp [checkRemoteFlag, hthrown, renderApp, checkRemoteFlagFinally, checkRemoteFlagCatch,
      errorTruthy, hfl, hne]
  refine ⟨hview, ?_⟩
  rw [hview]
  intro hcon
  cases hcon

/-- C16, instance: first launch, fonts loaded, the flag fetch rejects with
`Network request failed`. -/
theorem error_outcome_renders_panel_witness :
    (loadFonts .loaded AppState.initial).state.fontsLoaded = true ∧
    (checkRemoteFlagTry Runtime.v8 (.transportError "Network request failed")
      (.transportError "unused") (loadFonts .loaded AppState.initial).state).thrown =
        some "Network request failed" ∧
    renderApp (checkRemoteFlag Runtime.v8 (.transportError "Network request failed")
      (.transportError "unused") (loadFonts .loaded AppState.initial).state).state =
        .errorPanel ("Failed to check updates: " ++ "Network request failed") ∧
    renderApp (checkRemoteFlag Runtime.v8 (.transportError "Network request failed")
      (.transportError "unused") (loadFonts .loaded AppState.initial).state).state ≠
        .nativeNavigator :=
  ⟨rfl, rfl, error_outcome_renders_panel Runtime.v8 _ _ _ _ rfl rfl⟩

/-- C17: at first launch, when font loading fails, `initializeApp` completes with
`error`, `appReady` true and `loading` false but `fontsLoaded` still false, and the
host renders the loading screen, whatever the two fetches would yield. -/
theorem font_failure_stays_on_loading_screen (rt : Runtime) (message : String)
    (flagFetch urlFetch : Fetch) :
    initializeApp rt (.failed message) flagFetch urlFetch AppState.initial =
      ⟨{ AppState.initial with error := some "Failed to initialize app", appReady := true,
                               loading := false }, none⟩ ∧
    renderApp (initializeApp rt (.failed message) flagFetch urlFetch AppState.initial).state =
      .loadingScreen :=
  ⟨rfl, rfl⟩


/-- C20: take an instance whose pending timeouts are those its cleanup function
clears (a fresh mount is one, an instance with a pending auto-retry timeout is
another) and let any events happen to it.  When it is then unmounted, no timeout
is pending, an elapsing timeout changes nothing, and no later event changes the
instance: `handleRetry` runs no more. -/
theorem unmount_cancels_timer (w : LoaderInstance) (events later : List LoaderEvent)
    (h : TimerInv w) :
    (unmount (runEvents events w)).pending = [] ∧
    (unmount (runEvents events w)).mounted = false ∧
    (∀ t, timerFires t (unmount (runEvents events w)) = unmount (runEvents events w)) ∧
    runEvents later (unmount (runEvents events w)) = unmount (runEvents events w) := by
  have hinv := timerInv_runEvents events w h
  have hp : (unmount (runEvents events w)).pending = [] := runCleanup_pending _ hinv
  have hc := unmount_cleanup (runEvents events w)
  refine ⟨hp, rfl, ?_, runEvents_torn_down later _ rfl hp hc⟩
  intro t
  simp [timerFires, hp]

/-- C20, instance: an instance in which the effect has scheduled timeout 0 (state
`hasError = true`, `loadAttempts = 0`).  Left mounted, the timeout runs
`handleRetry`; unmounted first, it is cleared and its elapsing changes nothing. -/
theorem unmount_cancels_timer_witness :
    TimerInv (runEffect { state := { hasError := true, isLoading := false, loadAttempts := 0 },
                          mounted := true, pending := [], cleanup := none, nextTimer := 0 }) ∧
    (runEffect { state := { hasError := true, isLoading := false, loadAttempts := 0 },
                 mounted := true, pending := [], cleanup := none, nextTimer := 0 }).pending =
      [0] ∧
    (timerFires 0
      (runEffect { state := { hasError := true, isLoading := false, loadAttempts := 0 },
                   mounted := true, pending := [], cleanup := none, nextTimer := 0 })).state =
      { hasError := false, isLoading := true, loadAttempts := 0 } ∧
    (unmount (runEvents []
      (runEffect { state := { hasError := true, isLoading := false, loadAttempts := 0 },
                   mounted := true, pending := [], cleanup := none,
                   nextTimer := 0 }))).pending = [] ∧
    runEvents [.timer 0] (unmount (runEvents []
      (runEffect { state := { hasError := true, isLoading := false, loadAttempts := 0 },
                   mounted := true, pending := [], cleanup := none, nextTimer := 0 }))) =
      unmount (runEvents []
        (runEffect { state := { hasError := true, isLoading := false, loadAttempts := 0 },
                     mounted := true, pending := [], cleanup := none, nextTimer := 0 })) :=
  have hinv : TimerInv
      (runEffect { state := { hasError := true, isLoading := false, loadAttempts := 0 },
                   mounted := true, pending := [], cleanup := none, nextTimer := 0 }) :=
    timerInv_runEffect _ rfl
  have h := unmount_cancels_timer _ [] [.timer 0] hinv
  ⟨hinv, by decide, by decide, h.1, h.2.2.2⟩


/-- C21: with the flag `true`, the locator object `{"url": 1, "x": "https://a.test"}`
ends in the error state with the `TypeError` of the engine as its reason (rule (b)
takes the number, and `startsWith` is called on it), although a scan of the
values would find `"https://a.test"`. -/
theorem checkRemoteFlag_number_url_ends_in_error (rt : Runtime) (status status2 : Nat)
    (s : AppState) :
    checkRemoteFlag rt (.response true status (.json (.bool true)))
        (.response true status2
          (.json (.obj [("url", .num 1), ("x", .str "https://a.test")]))) s =
      ⟨{ s with loading := false, appReady := true, shouldLoadWebView := false,
                webViewFailed := false,
                error := some ("Failed to check updates: " ++ rt.notAFunction (.num 1)) },
        none⟩ ∧
    specScan (Json.obj [("url", .num 1), ("x", .str "https://a.test")]).values =
      some "https://a.test" := by
  have hex : extractFinalUrl (.obj [("url", .num 1), ("x", .str "https://a.test")]) =
      some (.num 1) := by
    have htruthy : truthyOpt ((Json.obj [("url", .num 1), ("x", .str "https://a.test")]).getProp
        "url") = true := by decide
    rw [extractFinalUrl_obj_url _ htruthy]
    rfl
  have hacc : acceptFinalUrl rt (some (.num 1)) { s with loading := true } =
      ⟨{ s with loading := true }, some (rt.notAFunction (.num 1))⟩ := by
    simp [acceptFinalUrl, Json.truthy]
  refine ⟨?_, by decide⟩
  rw [checkRemoteFlag_of_try_some rt _ _ s _ _
    ((checkRemoteFlag_locator_json rt status status2 _ s).trans (by rw [hex]; exact hacc))]
  rfl

/-- C22: when the flag read is anything but a successful response with body `true`,
`checkRemoteFlag` issues the single request to the flag endpoint, and two runs
that differ only in what the locator endpoint would answer end in the same
state. -/
theorem checkRemoteFlag_ignores_locator (rt : Runtime) (flagFetch urlFetch1 urlFetch2 : Fetch)
    (s : AppState)
    (hflag : ∀ status, flagFetch ≠ .response true status (.json (.bool true))) :
    checkRemoteFlag rt flagFetch urlFetch1 s = checkRemoteFlag rt flagFetch urlFetch2 s ∧
    checkRemoteFlagFetches flagFetch = [FLAG_URL] ∧
    URL_CONFIG ∉ checkRemoteFlagFetches flagFetch := by
  have hne : URL_CONFIG ∉ [FLAG_URL] := by decide
  rcases flagFetch with m | ⟨ok, status, body⟩
  · exact ⟨rfl, rfl, hne⟩
  · cases ok
    · exact ⟨rfl, rfl, hne⟩
    · cases body with
      | readError m => exact ⟨rfl, rfl, hne⟩
      | invalidJson => exact ⟨rfl, rfl, hne⟩
      | json flagData =>
        have hne2 : flagData ≠ .bool true := by
          intro h
          exact hflag status (by rw [h])
        have hlog : checkRemoteFlagFetches (.response true status (.json flagData)) =
            [FLAG_URL] := by
          cases flagData with
          | bool b =>
            cases b
            · rfl
            · exact absurd rfl hne2
          | _ => rfl
        refine ⟨?_, hlog, by rw [hlog]; exact hne⟩
        rw [checkRemoteFlag_flag_other rt status flagData urlFetch1 s hne2,
          checkRemoteFlag_flag_other rt status flagData urlFetch2 s hne2]

/-- C22, instance: flag body `false`, one locator answer a valid URL and the other a
transport failure. -/
theorem checkRemoteFlag_ignores_locator_witness :
    (∀ status, Fetch.response true 200 (.json (.bool false)) ≠
      .response true status (.json (.bool true))) ∧
    checkRemoteFlag Runtime.v8 (.response true 200 (.json (.bool false)))
        (.response true 200 (.json (.str "https://a.test"))) AppState.initial =
      checkRemoteFlag Runtime.v8 (.response true 200 (.json (.bool false)))
        (.transportError "Network request failed") AppState.initial ∧
    checkRemoteFlagFetches (.response true 200 (.json (.bool false))) = [FLAG_URL] :=
  have h : ∀ status, Fetch.response true 200 (.json (.bool false)) ≠
      .response true status (.json (.bool true)) := by
    intro status hcon
    cases hcon
  have hthm := checkRemoteFlag_ignores_locator Runtime.v8 _
    (.response true 200 (.json (.str "https://a.test")))
    (.transportError "Network request failed") AppState.initial h
  ⟨h, hthm.1, hthm.2.1⟩

/-- C24: in every state the load-start, load-end, load-progress and "use native app"
handlers keep `loadAttempts`; `handleError` adds one to it below the ceiling and
keeps it at the ceiling; `handleRetry` sets it to 0. -/
theorem loadAttempts_frame (s : LoaderState) (progress : ℚ) (referenceError : String → String) :
    (onLoadStart s).loadAttempts = s.loadAttempts ∧
    (onLoadEnd s).loadAttempts = s.loadAttempts ∧
    (onLoadProgress progress s).loadAttempts = s.loadAttempts ∧
    (handleLoadNativeApp referenceError s).state.loadAttempts = s.loadAttempts ∧
    (Signal.useNativeApp.handle s).loadAttempts = s.loadAttempts ∧
    (handleError s).loadAttempts =
      (if s.loadAttempts < MAX_RETRY_ATTEMPTS then s.loadAttempts + 1 else s.loadAttempts) ∧
    (handleRetry s).loadAttempts = 0 := by
  refine ⟨rfl, rfl, ?_, ?_, rfl, ?_, rfl⟩
  · unfold onLoadProgress
    split <;> rfl
  · unfold handleLoadNativeApp
    split <;> rfl
  · unfold handleError
    split <;> rfl

/-- C25: `handleLoadNativeApp` raises the `ReferenceError` for `Alert`, a name that
no import of `WebViewScreen.js` binds, and presents no alert; it leaves the state
unchanged and makes no call on the props. -/
theorem handleLoadNativeApp_raises (referenceError : String → String) (s : LoaderState) :
    "Alert" ∉ webViewScreenImports ∧
    handleLoadNativeApp referenceError s =
      { state := s, alerts := [], calls := [], thrown := some (referenceError "Alert") } := by
  have h : "Alert" ∉ webViewScreenImports := by decide
  exact ⟨h, by unfold handleLoadNativeApp; rw [if_neg h]⟩

/-- C26: in every state reached from a fresh mount, `hasError` is false or
`loadAttempts` is at least 2, so the auto-retry effect schedules no timeout; and
after any events on a freshly mounted instance no timeout is pending. -/
theorem autoRetry_never_scheduled (signals : List Signal) (events : List LoaderEvent) :
    ((runSignals signals LoaderState.mount).hasError = false ∨
      2 ≤ (runSignals signals LoaderState.mount).loadAttempts) ∧
    autoRetryEffect (runSignals signals LoaderState.mount) = none ∧
    autoRetryEffect (runEvents events LoaderInstance.mount).state = none ∧
    (runEvents events LoaderInstance.mount).pending = [] := by
  have hinv := loaderInv_runSignals signals LoaderState.mount loaderInv_mount
  have hq := runEvents_quiet events LoaderInstance.mount mount_quiet.1 mount_quiet.2
  refine ⟨?_, autoRetryEffect_none_of_inv _ hinv, autoRetryEffect_none_of_inv _ hq.1, hq.2⟩
  cases herr : (runSignals signals LoaderState.mount).hasError with
  | false => exact Or.inl rfl
  | true => exact Or.inr (hinv.2 herr)


/-- C23: in every host state reached from a launch in which the error panel is
rendered, `handleRetryInitialCheck` (fonts loading again) ends exactly as a fresh
launch on the same two reads does; with a flag other than `true` the native
navigator is rendered with `error` null, and with a valid bare-string locator the
WebView is rendered with it. -/
theorem retry_equals_fresh_launch (rt : Runtime) (fonts0 : FontLoad) (flag0 url0 : Fetch)
    (actions : List HostAction) (flagFetch urlFetch : Fetch) (m : String)
    (hpanel : renderApp (hostRun rt actions
      (initializeApp rt fonts0 flag0 url0 AppState.initial).state) = .errorPanel m) :
    handleRetryInitialCheck rt .loaded flagFetch urlFetch
        (hostRun rt actions (initializeApp rt fonts0 flag0 url0 AppState.initial).state) =
      initializeApp rt .loaded flagFetch urlFetch AppState.initial ∧
    (∀ status flagData, flagData ≠ .bool true →
      (handleRetryInitialCheck rt .loaded (.response true status (.json flagData)) urlFetch
        (hostRun rt actions
          (initializeApp rt fonts0 flag0 url0 AppState.initial).state)).state.error = none ∧
      renderApp (handleRetryInitialCheck rt .loaded (.response true status (.json flagData))
        urlFetch (hostRun rt actions
          (initializeApp rt fonts0 flag0 url0 AppState.initial).state)).state =
        .nativeNavigator) ∧
    (∀ status status2 u, startsWith u "http" = true →
      renderApp (handleRetryInitialCheck rt .loaded (.response true status (.json (.bool true)))
        (.response true status2 (.json (.str u))) (hostRun rt actions
          (initializeApp rt fonts0 flag0 url0 AppState.initial).state)).state =
        .webViewScreen u) := by
  have hurl : (hostRun rt actions
      (initializeApp rt fonts0 flag0 url0 AppState.initial).state).webViewUrl = "" := by
    rcases hostRun_url_or_error rt actions _
      (initializeApp_url_or_error rt fonts0 flag0 url0 AppState.initial rfl rfl) with h | h
    · exact h
    · exact absurd h (errorPanel_facts _ m hpanel).2.2.2.2.2
  refine ⟨retry_from_panel rt flagFetch urlFetch _ m hpanel hurl, ?_, ?_⟩
  · intro status flagData hne
    rw [retry_from_panel rt _ urlFetch _ m hpanel hurl, initializeApp_loaded,
      checkRemoteFlag_flag_other rt status flagData urlFetch _ hne]
    exact ⟨rfl, rfl⟩
  · intro status status2 u hpre
    have hex : extractFinalUrl (.str u) = some (.str u) := rfl
    rw [retry_from_panel rt _ _ _ m hpanel hurl, initializeApp_loaded,
      checkRemoteFlag_of_try_none rt _ _ _ _
        ((checkRemoteFlag_locator_json rt status status2 (.str u) _).trans
          (by rw [hex, acceptFinalUrl_str, if_pos hpre]))]
    rfl

/-- C23, instance: the first launch fails at the flag read; the retry finds the flag
`false` and ends as a fresh launch with that flag does, in the native navigator. -/
theorem retry_equals_fresh_launch_witness :
    renderApp (hostRun Runtime.v8 []
      (initializeApp Runtime.v8 .loaded (.transportError "Network request failed")
        (.transportError "unused") AppState.initial).state) =
      .errorPanel "Failed to check updates: Network request failed" ∧
    handleRetryInitialCheck Runtime.v8 .loaded (.response true 200 (.json (.bool false)))
        (.transportError "unused")
        (hostRun Runtime.v8 []
          (initializeApp Runtime.v8 .loaded (.transportError "Network request failed")
            (.transportError "unused") AppState.initial).state) =
      initializeApp Runtime.v8 .loaded (.response true 200 (.json (.bool false)))
        (.transportError "unused") AppState.initial :=
  ⟨by decide,
    (retry_equals_fresh_launch Runtime.v8 .loaded (.transportError "Network request failed")
      (.transportError "unused") [] (.response true 200 (.json (.bool false)))
      (.transportError "unused") "Failed to check updates: Network request failed"
      (by decide)).1⟩


/-- C27: when `deleteHerdBatch(batchId)` returns `true`, the batches of the new state are
those of the old one whose `id` differs from `batchId`, its productivity records
those whose `batchId` differs, both in their original order; the number of
records removed is `getProductivityRecordsCount(batchId)` on the old state, and
the inventory is untouched. -/
theorem deleteHerdBatch_removes_exactly (storedBatches : Option (List HerdBatch))
    (state : AppData) (batchId : String)
    (h : (deleteHerdBatch storedBatches state batchId).1 = true) :
    (deleteHerdBatch storedBatches state batchId).2.herdBatches =
      state.herdBatches.filter (fun batch => batch.id != batchId) ∧
    (deleteHerdBatch storedBatches state batchId).2.productivity =
      state.productivity.filter (fun record => record.batchId != batchId) ∧
    (∀ b, b ∈ (deleteHerdBatch storedBatches state batchId).2.herdBatches ↔
      b ∈ state.herdBatches ∧ b.id ≠ batchId) ∧
    (∀ r, r ∈ (deleteHerdBatch storedBatches state batchId).2.productivity ↔
      r ∈ state.productivity ∧ r.batchId ≠ batchId) ∧
    ((deleteHerdBatch storedBatches state batchId).2.herdBatches).Sublist state.herdBatches ∧
    ((deleteHerdBatch storedBatches state batchId).2.productivity).Sublist
      state.productivity ∧
    state.productivity.length =
      (deleteHerdBatch storedBatches state batchId).2.productivity.length +
        getProductivityRecordsCount state.productivity batchId ∧
    (deleteHerdBatch storedBatches state batchId).2.inventory = state.inventory := by
  cases storedBatches with
  | none => cases h
  | some data =>
    have hb : (deleteHerdBatch (some data) state batchId).2.herdBatches =
        state.herdBatches.filter (fun batch => batch.id != batchId) := rfl
    have hp : (deleteHerdBatch (some data) state batchId).2.productivity =
        state.productivity.filter (fun record => record.batchId != batchId) := rfl
    refine ⟨hb, hp, ?_, ?_, ?_, ?_, ?_, rfl⟩
    · intro b
      rw [hb]
      simp [List.mem_filter]
    · intro r
      rw [hp]
      simp [List.mem_filter]
    · rw [hb]
      exact List.filter_sublist _
    · rw [hp]
      exact List.filter_sublist _
    · rw [hp]
      have hsplit := length_filter_split (fun record : ProductivityRecord =>
        record.batchId == batchId) state.productivity
      simpa [getProductivityRecordsCount, bne] using hsplit


/-- C27, instance: deleting `b1` from a state with batches `b1`, `b2` and records of
`b1`, `b2`, `b1` leaves batch `b2` and the record of `b2`; two records go, the
number `getProductivityRecordsCount` gives. -/
theorem deleteHerdBatch_removes_exactly_witness :
    (deleteHerdBatch (some sampleData.herdBatches) sampleData "b1").1 = true ∧
    (deleteHerdBatch (some sampleData.herdBatches) sampleData "b1").2.herdBatches =
      [sampleBatch "b2"] ∧
    (deleteHerdBatch (some sampleData.herdBatches) sampleData "b1").2.productivity =
      [sampleRecord "r2" "b2"] ∧
    getProductivityRecordsCount sampleData.productivity "b1" = 2 :=
  have h := deleteHerdBatch_removes_exactly (some sampleData.herdBatches) sampleData "b1" rfl
  ⟨rfl, h.1.trans (by decide), h.2.1.trans (by decide), by decide⟩

/-- C28: for an `itemId` that `state.inventory` does not hold, `updateInventory` appends
to the stored list an item whose `id` is the text of `Date.now()`, not `itemId`:
`Storage.addItem` writes `id` after the spread of the new item. -/
theorem updateInventory_new_item_gets_timestamp_id (now : Nat) (iso : String)
    (inventory stored : List InventoryItem) (itemId : String) (updates : StockUpdates)
    (hnew : inventory.find? (fun item => item.id == itemId) = none) :
    updateInventory now iso inventory stored itemId updates =
      stored ++ [{ id := toString now, name := none, type := none,
                   currentStock := some updates.currentStock, unit := none, minStock := none,
                   createdAt := some iso, synced := some false, updatedAt := none }] ∧
    (updateInventory now iso inventory stored itemId updates).length = stored.length + 1 := by
  unfold updateInventory
  rw [hnew]
  exact ⟨rfl, by simp [Storage.addItem]⟩

/-- C28, instance: on an empty inventory, `updateInventory("1", ...)` at time
1700000000000 and again at 1700000005000 gives two items, with the two times
as their ids and none with id `"1"`. -/
theorem updateInventory_new_item_gets_timestamp_id_witness :
    ([] : List InventoryItem).find? (fun item => item.id == "1") = none ∧
    (updateInventory 1700000000000 "2023-11-14T22:13:20.000Z" [] [] "1"
      { currentStock := .finite 10 }).map (fun item => item.id) = ["1700000000000"] ∧
    (updateInventory 1700000005000 "2023-11-14T22:13:25.000Z"
      (updateInventory 1700000000000 "2023-11-14T22:13:20.000Z" [] [] "1"
        { currentStock := .finite 10 })
      (updateInventory 1700000000000 "2023-11-14T22:13:20.000Z" [] [] "1"
        { currentStock := .finite 10 }) "1"
      { currentStock := .finite 20 }).map (fun item => item.id) =
        ["1700000000000", "1700000005000"] ∧
    (updateInventory 1700000005000 "2023-11-14T22:13:25.000Z"
      (updateInventory 1700000000000 "2023-11-14T22:13:20.000Z" [] [] "1"
        { currentStock := .finite 10 })
      (updateInventory 1700000000000 "2023-11-14T22:13:20.000Z" [] [] "1"
        { currentStock := .finite 10 }) "1"
      { currentStock := .finite 20 }).find? (fun item => item.id == "1") = none :=
  have h := updateInventory_new_item_gets_timestamp_id 1700000000000
    "2023-11-14T22:13:20.000Z" [] [] "1" { currentStock := .finite 10 } rfl
  ⟨rfl, (congrArg (List.map (fun item => item.id)) h.1).trans (by decide), by decide,
    by decide⟩

/-- C29: with the adjustment of one of the four stock buttons, `handleUpdateStock`
returns without a call, or shows the alert `Stock cannot be negative` without a
call, or calls `updateInventory` with `current + adjustment`, which is then at
least 0; `handleSaveManualEdit` returns without a call, or shows the alert
`Please enter valid quantity` without a call, or calls `updateInventory` with the
parsed quantity, which is then not `NaN` and at least 0. -/
theorem stock_updates_nonnegative (parseFloat : String → JsNumber)
    (inventory : List InventoryItem) (itemId : String) (adjustment : JsNumber)
    (editingItem : Option InventoryItem) (newQuantity : String)
    (hadj : adjustment ∈ stockButtons) :
    (handleUpdateStock inventory itemId adjustment = .ignored ∨
      handleUpdateStock inventory itemId adjustment =
        .rejected "Error" "Stock cannot be negative" ∨
      ∃ item : InventoryItem,
        handleUpdateStock inventory itemId adjustment =
          .update itemId ((stockOrZero item.currentStock).add adjustment) ∧
        (JsNumber.finite 0).le ((stockOrZero item.currentStock).add adjustment) = true) ∧
    (handleSaveManualEdit parseFloat editingItem newQuantity = .ignored ∨
      handleSaveManualEdit parseFloat editingItem newQuantity =
        .rejected "Error" "Please enter valid quantity" ∨
      ∃ item : InventoryItem, editingItem = some item ∧
        handleSaveManualEdit parseFloat editingItem newQuantity =
          .update item.id (parseFloat newQuantity) ∧
        (parseFloat newQuantity).isNaN = false ∧
        (JsNumber.finite 0).le (parseFloat newQuantity) = true) := by
  obtain ⟨r, rfl⟩ := stockButtons_finite adjustment hadj
  constructor
  · unfold handleUpdateStock
    cases (inventory.find? (fun i => i.id == itemId)).orElse
        (fun _ => defaultItems.find? (fun i => i.id == itemId)) with
    | none => exact Or.inl rfl
    | some item =>
      cases hlt : ((stockOrZero item.currentStock).add (.finite r)).lt (.finite 0) with
      | true => exact Or.inr (Or.inl (by simp [hlt]))
      | false =>
        exact Or.inr (Or.inr ⟨item, by simp [hlt],
          nonneg_of_not_lt _ (stockOrZero_add_isNaN _ r) hlt⟩)
  · unfold handleSaveManualEdit
    cases editingItem with
    | none => exact Or.inl rfl
    | some item =>
      cases hnan : (parseFloat newQuantity).isNaN with
      | true => exact Or.inr (Or.inl (by simp [hnan]))
      | false =>
        cases hlt : (parseFloat newQuantity).lt (.finite 0) with
        | true => exact Or.inr (Or.inl (by simp [hlt]))
        | false =>
          exact Or.inr (Or.inr ⟨item, rfl, by simp [hnan, hlt], rfl,
            nonneg_of_not_lt _ hnan hlt⟩)

/-- C29, instance: on the default item `"1"` (stock 0) the button `-1` is rejected
and the button `+10` calls `updateInventory` with 10; a manual edit to a text
that does not parse is rejected. -/
theorem stock_updates_nonnegative_witness :
    JsNumber.finite (-1) ∈ stockButtons ∧
    handleUpdateStock [] "1" (.finite (-1)) = .rejected "Error" "Stock cannot be negative" ∧
    handleUpdateStock [] "1" (.finite 10) = .update "1" (.finite 10) ∧
    (handleSaveManualEdit (fun _ => JsNumber.nan) (some sampleUpdateItem) "abc" = .ignored ∨
      handleSaveManualEdit (fun _ => JsNumber.nan) (some sampleUpdateItem) "abc" =
        .rejected "Error" "Please enter valid quantity" ∨
      ∃ item : InventoryItem, some sampleUpdateItem = some item ∧
        handleSaveManualEdit (fun _ => JsNumber.nan) (some sampleUpdateItem) "abc" =
          .update item.id ((fun _ => JsNumber.nan) "abc") ∧
        ((fun _ => JsNumber.nan) "abc").isNaN = false ∧
        (JsNumber.finite 0).le ((fun _ => JsNumber.nan) "abc") = true) :=
  ⟨by decide,
    by simp [handleUpdateStock, defaultItems, stockOrZero, JsNumber.truthy, JsNumber.add,
      JsNumber.lt, Option.orElse],
    by simp [handleUpdateStock, defaultItems, stockOrZero, JsNumber.truthy, JsNumber.add,
      JsNumber.lt, Option.orElse],
    (stock_updates_nonnegative (fun _ => JsNumber.nan) [] "1" (.finite (-1))
      (some sampleUpdateItem) "abc" (by decide)).2⟩

/-- C30: `validateForm` returns `true` for the quantity texts `abc` and `.` (with a
breed), because `parseInt` gives `NaN` and `NaN <= 0` is false, and `handleSubmit`
then passes `addHerdBatch` a batch whose `quantity` and `currentQuantity` are `NaN`. -/
theorem validateForm_accepts_unparsable_quantity :
    parseInt "abc" = .nan ∧
    validateForm { breed := "Lohmann Brown", quantity := "abc",
                   arrivalDate := "2025-11-19T22:00:00.000Z", notes := "" } = true ∧
    handleSubmit { breed := "Lohmann Brown", quantity := "abc",
                   arrivalDate := "2025-11-19T22:00:00.000Z", notes := "" } =
      some { breed := "Lohmann Brown", quantity := .nan,
             arrivalDate := "2025-11-19T22:00:00.000Z", notes := "",
             currentQuantity := .nan } ∧
    validateForm { breed := "Lohmann Brown", quantity := ".",
                   arrivalDate := "2025-11-19T22:00:00.000Z", notes := "" } = true ∧
    validateForm { breed := "Lohmann Brown", quantity := "0",
                   arrivalDate := "2025-11-19T22:00:00.000Z", notes := "" } = false ∧
    validateForm { breed := "Lohmann Brown", quantity := "25",
                   arrivalDate := "2025-11-19T22:00:00.000Z", notes := "" } = true := by
  decide

end PoultryFarm
